import Mathlib

/-!
# xlmon: a shallow embedding of the monitoring loop

The C program `xlmon.c` supervises one Xen DomU.  This file embeds the
functions of `xlmon.c` as Lean functions over an explicit program state and
proves properties of the poll / classify / act loop.

Modelling conventions
* Every C function of `xlmon.c` becomes a function `State → Outcome`.  An
  `Outcome` tells how the call ended: it returned (`ok`), the process called
  `exit` (`exited code`), or the process image was replaced by `execlp`
  (`execed`).
* Calls that leave the program (libxl, `fork`, `execlp`, `sleep`) are recorded
  in `State.trace`, in program order, and take their results from `State.env`,
  which holds, for each kind of call, the stream of results still to come.
* `unsigned int` is 32 bits wide: arithmetic on it is reduced modulo `2^32`.
* `printf` / `fprintf` output and heap management (`malloc`, `free`) are not
  modelled.
* Signal handlers are functions on the state; `main_loop_body` is one
  iteration during which no handler runs, and `main_loop` lets handlers run at
  the loop-top check.
* `getopt` is part of the C library: `xlmon_init_config` is modelled on the
  sequence of values `getopt` returns.  `strtoul` is modelled for base 10 and
  a 64-bit `unsigned long`.
-/

namespace Xlmon

/-! ## Data model (`xlmon.h` and the parts of libxl the program reads) -/

/-- Number of values of a 32-bit `unsigned int`. -/
def UINT_MOD : Nat := 4294967296

/-- From `xlmon.h`: `#define DEFAULT_RUN_PERIOD 5`. -/
def DEFAULT_RUN_PERIOD : Nat := 5

/-- The libxl enumeration `libxl_shutdown_reason`; the program only compares it
with `LIBXL_SHUTDOWN_REASON_REBOOT`. -/
inductive libxl_shutdown_reason where
  | unknown
  | poweroff
  | reboot
  | suspend
  | crash
  | watchdog
  deriving DecidableEq, Repr

/-- The two fields of `libxl_dominfo` that the program reads. -/
structure libxl_dominfo where
  shutdown : Bool
  shutdown_reason : libxl_shutdown_reason
  deriving DecidableEq, Repr

/-- From `xlmon.h`, `xlmon_ctx`.  The two pointers are modelled by whether they
are non-NULL. -/
structure xlmon_ctx where
  ctx : Bool
  logger : Bool
  vminfo : libxl_dominfo
  vmid : Nat
  deriving DecidableEq, Repr

/-- From `xlmon.h`, `xlmon_config`.  A `char *` is `none` when NULL. -/
structure xlmon_config where
  do_shutdown : Nat
  do_restart : Nat
  do_term : Nat
  do_destroy : Nat
  do_ignore_vm_shutdown : Nat
  do_recover_stale_vm_id : Nat
  vm_name : Option String
  vm_config_file : Option String
  deriving DecidableEq, Repr

/-- From `xlmon.h`, `xlmon_run_info`. -/
structure xlmon_run_info where
  running : Nat
  term_received : Nat
  period : Nat
  deriving DecidableEq, Repr

/-- The two signals for which `main` installs a handler. -/
inductive Signal where
  | SIGINT
  | SIGTERM
  deriving DecidableEq, Repr

/-- One call that leaves the program, with the arguments the program passes. -/
inductive Event where
  | libxl_domain_info (vmid : Nat)
  | libxl_name_to_domid (name : Option String)
  | libxl_domain_destroy (vmid : Nat)
  | libxl_domain_shutdown (vmid : Nat)
  | libxl_send_trigger (vmid : Nat)
  | fork
  | execlp (config_file : Option String)
  | sleep (seconds : Nat)
  | libxl_ctx_free
  | xtl_logger_destroy
  deriving DecidableEq, Repr

/-- Results of the calls still to come, one stream per kind of call; entry `0`
is the result of the next call of that kind.
* `domain_info`: `none` when `libxl_domain_info` returns nonzero, `some i` when
  it returns 0 and stores `i`;
* `name_to_domid`: `none` when `libxl_name_to_domid` returns nonzero, `some d`
  when it returns 0 and stores `d`;
* `domain_destroy`, `domain_shutdown`, `send_trigger`: the `int` returned;
* `fork`: the `pid_t` returned;
* `execlp`: `true` when the process image is replaced (the call does not
  return), `false` when the call fails and returns;
* `signals`: the signals delivered before the next loop-top check. -/
structure Env where
  domain_info : Nat → Option libxl_dominfo
  name_to_domid : Nat → Option Nat
  domain_destroy : Nat → Int
  domain_shutdown : Nat → Int
  send_trigger : Nat → Int
  fork : Nat → Int
  execlp : Nat → Bool
  signals : Nat → List Signal

/-- The stream without its first entry. -/
def next {α : Type} (f : Nat → α) : Nat → α := fun n => f (n + 1)

/-- The program state: the locals `ctx` and `config` of `main`, the global
`run_info`, the results still to come and the calls made so far. -/
structure State where
  ctx : xlmon_ctx
  config : xlmon_config
  run_info : xlmon_run_info
  env : Env
  trace : List Event

/-- How a call of a function of `xlmon.c` ends. -/
inductive Outcome where
  | ok (s : State)
  | exited (code : Nat) (s : State)
  | execed (s : State)

/-- The state in which the call ended. -/
def Outcome.state : Outcome → State
  | .ok s => s
  | .exited _ s => s
  | .execed s => s

/-- The exit code, when the call ended in `exit`. -/
def Outcome.exit_code : Outcome → Option Nat
  | .exited c _ => some c
  | _ => none

/-- The call returned to its caller. -/
def Outcome.returned : Outcome → Bool
  | .ok _ => true
  | _ => false

/-- Sequencing: the statements after a call run only when the call returns. -/
def Outcome.andThen (o : Outcome) (f : State → Outcome) : Outcome :=
  match o with
  | .ok s => f s
  | .exited c s => .exited c s
  | .execed s => .execed s

/-- Record a call. -/
def State.emit (s : State) (e : Event) : State :=
  { s with trace := s.trace ++ [e] }

/-! ## Calls that leave the program -/

/-- The call `sleep(seconds)`. -/
def sleep (seconds : Nat) (s : State) : State :=
  s.emit (.sleep seconds)

/-- The call `libxl_domain_info(ctx.ctx, &ctx.vminfo, ctx.vmid)`: the first
component tells whether the call returned nonzero. -/
def libxl_domain_info (s : State) : Bool × State :=
  let s1 := { s.emit (.libxl_domain_info s.ctx.vmid) with
              env := { s.env with domain_info := next s.env.domain_info } }
  match s.env.domain_info 0 with
  | none => (true, s1)
  | some i => (false, { s1 with ctx := { s1.ctx with vminfo := i } })

/-- The call `libxl_name_to_domid(ctx->ctx, config->vm_name, &ctx->vmid)`: the
first component tells whether the call returned nonzero. -/
def libxl_name_to_domid (s : State) : Bool × State :=
  let s1 := { s.emit (.libxl_name_to_domid s.config.vm_name) with
              env := { s.env with name_to_domid := next s.env.name_to_domid } }
  match s.env.name_to_domid 0 with
  | none => (true, s1)
  | some d => (false, { s1 with ctx := { s1.ctx with vmid := d } })

/-- The call `libxl_domain_destroy(ctx->ctx, ctx->vmid, NULL)`. -/
def libxl_domain_destroy (s : State) : Int × State :=
  (s.env.domain_destroy 0,
   { s.emit (.libxl_domain_destroy s.ctx.vmid) with
     env := { s.env with domain_destroy := next s.env.domain_destroy } })

/-- The call `libxl_domain_shutdown(ctx->ctx, ctx->vmid)`. -/
def libxl_domain_shutdown (s : State) : Int × State :=
  (s.env.domain_shutdown 0,
   { s.emit (.libxl_domain_shutdown s.ctx.vmid) with
     env := { s.env with domain_shutdown := next s.env.domain_shutdown } })

/-- The call `libxl_send_trigger(ctx->ctx, ctx->vmid, LIBXL_TRIGGER_POWER, 0)`. -/
def libxl_send_trigger (s : State) : Int × State :=
  (s.env.send_trigger 0,
   { s.emit (.libxl_send_trigger s.ctx.vmid) with
     env := { s.env with send_trigger := next s.env.send_trigger } })

/-- The call `fork()`. -/
def fork (s : State) : Int × State :=
  (s.env.fork 0,
   { s.emit .fork with env := { s.env with fork := next s.env.fork } })

/-- The call `execlp("xl", "xl", "create", config->vm_config_file, NULL)`: the
first component tells whether the process image was replaced. -/
def execlp (s : State) : Bool × State :=
  (s.env.execlp 0,
   { s.emit (.execlp s.config.vm_config_file) with
     env := { s.env with execlp := next s.env.execlp } })

/-! ## The functions of `xlmon.c` -/

/-- `signal_stop_running` (lines 52-59): `signum` only selects the message
printed. -/
def signal_stop_running (_signum : Int) (s : State) : Outcome :=
  .ok { s with run_info := { s.run_info with running := 0 } }

/-- `signal_shutdown` (lines 61-64). -/
def signal_shutdown (_signum : Int) (s : State) : Outcome :=
  .ok { s with run_info := { s.run_info with term_received := 1 } }

/-- `program_shutdown` (lines 67-85): the libxl context and the logger are
released when they are non-NULL; the two `free` calls on the strings are not
modelled. -/
def program_shutdown (s : State) : Outcome :=
  let s1 := if s.ctx.ctx then s.emit .libxl_ctx_free else s
  let s2 := if s1.ctx.logger then s1.emit .xtl_logger_destroy else s1
  .ok s2

/-- `program_shutdown_due_to_stale_vmid` (lines 88-93). -/
def program_shutdown_due_to_stale_vmid (s : State) : Outcome :=
  (program_shutdown s).andThen fun s1 => .exited 4 s1

/-- `vm_name_to_vmid` (lines 96-109). -/
def vm_name_to_vmid (s : State) : Outcome :=
  let r := libxl_name_to_domid s
  if r.1 then
    (program_shutdown r.2).andThen fun s1 => .exited 3 s1
  else
    .ok r.2

/-- `vm_destroy` (lines 112-117): the result of `libxl_domain_destroy` is
discarded. -/
def vm_destroy (s : State) : Outcome :=
  .ok (libxl_domain_destroy s).2

/-- `vm_shutdown` (lines 120-141): a nonzero result of `libxl_send_trigger`
only prints a message. -/
def vm_shutdown (s : State) : Outcome :=
  if s.config.do_shutdown = 1 then
    let r := libxl_domain_shutdown s
    if r.1 ≠ 0 then
      let t := libxl_send_trigger r.2
      .ok t.2
    else
      .ok r.2
  else
    .ok s

/-- `vm_create_with_xl_command` (lines 147-170): the three branches on the pid
returned by `fork`; in the child, `execlp` returns only when it failed. -/
def vm_create_with_xl_command (s : State) : Outcome :=
  let r := fork s
  if r.1 < 0 then
    .ok r.2
  else if r.1 = 0 then
    let x := execlp r.2
    if x.1 then .execed x.2 else .ok x.2
  else
    vm_name_to_vmid (sleep (r.2.run_info.period * 2 % UINT_MOD) r.2)

/-- The poll step of one iteration of the loop of `main` (lines 339-353). -/
def main_loop_poll (s : State) : Outcome :=
  let r := libxl_domain_info s
  if r.1 then
    if r.2.config.do_recover_stale_vm_id = 0 then
      program_shutdown_due_to_stale_vmid r.2
    else
      (vm_name_to_vmid r.2).andThen fun s1 =>
        let q := libxl_domain_info s1
        if q.1 then program_shutdown_due_to_stale_vmid q.2 else .ok q.2
  else
    .ok r.2

/-- The rest of one iteration of the loop of `main` (lines 356-407). -/
def main_loop_act (s : State) : Outcome :=
  if s.run_info.term_received = 1 then
    (vm_shutdown s).andThen fun s1 =>
      .ok { s1 with run_info := { s1.run_info with term_received := 0 } }
  else if s.ctx.vminfo.shutdown then
    if s.ctx.vminfo.shutdown_reason = .reboot then
      if s.config.do_restart = 1 then
        let s1 := sleep (s.run_info.period * 2 % UINT_MOD) s
        (if s1.config.do_destroy = 1 then vm_destroy s1 else .ok s1).andThen
          vm_create_with_xl_command
      else
        .ok (sleep s.run_info.period s)
    else
      (if s.config.do_destroy = 1 then
          vm_destroy (sleep (s.run_info.period * 2 % UINT_MOD) s)
        else .ok s).andThen fun s1 =>
        if s1.config.do_ignore_vm_shutdown = 0 then
          signal_stop_running 0 s1
        else
          .ok (sleep s1.run_info.period s1)
  else
    .ok (sleep s.run_info.period s)

/-- One iteration of the loop of `main` (lines 338-407). -/
def main_loop_body (s : State) : Outcome :=
  (main_loop_poll s).andThen main_loop_act

/-- The handler `main` installs for a signal (lines 325-332), run on the
state. -/
def signal_handler (s : State) : Signal → Outcome
  | .SIGINT => signal_stop_running 2 s
  | .SIGTERM =>
    if s.config.do_term = 1 then signal_shutdown 15 s else signal_stop_running 15 s

/-- Run the handlers of the signals delivered, in order. -/
def deliver : List Signal → State → Outcome
  | [], s => .ok s
  | sig :: rest, s => (signal_handler s sig).andThen (deliver rest)

/-- Deliver the signals that arrive before the next loop-top check. -/
def deliver_pending (s : State) : Outcome :=
  deliver (s.env.signals 0) { s with env := { s.env with signals := next s.env.signals } }

/-- How a bounded run of the loop of `main` stands: `unfinished s` when the
loop is still running, in state `s`, after the allowed number of loop-top
checks; `finished o` when the loop is over, with `o = ok s` when a loop-top
check found `running` different from 1 and otherwise the outcome of the call
that ended the process. -/
inductive LoopResult where
  | unfinished (s : State)
  | finished (o : Outcome)

/-- The state reached by a bounded run of the loop. -/
def LoopResult.state : LoopResult → State
  | .unfinished s => s
  | .finished o => o.state

/-- The loop of `main` (lines 337-408), for at most `fuel` loop-top checks. -/
def main_loop : Nat → State → LoopResult
  | 0, s => .unfinished s
  | fuel + 1, s =>
    match deliver_pending s with
    | .ok s1 =>
      if s1.run_info.running = 1 then
        match main_loop_body s1 with
        | .ok s2 => main_loop fuel s2
        | o => .finished o
      else
        .finished (.ok s1)
    | o => .finished o

/-! ## Command line parsing and the set-up in `main` -/

/-- One value returned by `getopt(argc, argv, "SRTDIAc:n:p:")` before it
returns -1: the option character and the value of `optarg` (`none` when NULL).
`getopt` belongs to the C library; the parser is modelled on the sequence of
the values it returns. -/
structure getopt_result where
  c : Char
  optarg : Option String
  deriving DecidableEq, Repr

/-- Number of values of a 64-bit `unsigned long`. -/
def ULONG_MOD : Nat := 18446744073709551616

/-- The C library predicate `isspace` in the "C" locale. -/
def isspace (c : Char) : Bool :=
  c.toNat = 32 || (9 ≤ c.toNat && c.toNat ≤ 13)

/-- The C library predicate `isdigit`. -/
def isdigit (c : Char) : Bool :=
  48 ≤ c.toNat && c.toNat ≤ 57

/-- Model of the C library call `strtoul(str, NULL, 10)` for a 64-bit
`unsigned long`: leading white space is skipped, one optional sign is read,
then the longest run of decimal digits.  Without digits the result is 0, a
value above `ULONG_MAX` gives `ULONG_MAX`, and a minus sign negates the value
modulo `2^64`. -/
def strtoul (str : String) : Nat :=
  let cs := str.toList.dropWhile isspace
  let cs1 := if cs.head? = some '-' ∨ cs.head? = some '+' then cs.tail else cs
  let v := (cs1.takeWhile isdigit).foldl (fun acc d => acc * 10 + (d.toNat - 48)) 0
  if ULONG_MOD ≤ v then ULONG_MOD - 1
  else if cs.head? = some '-' then (ULONG_MOD - v) % ULONG_MOD
  else v

/-- `usage` (lines 32-50): prints the usage text and calls `exit(1)`. -/
def usage (s : State) : Outcome :=
  .exited 1 s

/-- The label `default` of the switch in `xlmon_init_config` (lines 236-237). -/
def xlmon_init_config_default (s : State) : Outcome :=
  usage s

/-- The label `case 'p'` (lines 229-233): the period is stored before it is
tested; a zero period and a NULL `optarg` fall through to `default`. -/
def xlmon_init_config_case_p (optarg : Option String) (s : State) : Outcome :=
  match optarg with
  | some a =>
    let s1 := { s with run_info := { s.run_info with period := strtoul a % UINT_MOD } }
    if s1.run_info.period ≠ 0 then .ok s1 else xlmon_init_config_default s1
  | none => xlmon_init_config_default s

/-- The label `case 'c'` (lines 220-226): a NULL `optarg` falls through to
`case 'p'`. -/
def xlmon_init_config_case_c (optarg : Option String) (s : State) : Outcome :=
  match optarg with
  | some a => .ok { s with config := { s.config with vm_config_file := some a } }
  | none => xlmon_init_config_case_p optarg s

/-- The label `case 'n'` (lines 211-217): a NULL `optarg` falls through to
`case 'c'`. -/
def xlmon_init_config_case_n (optarg : Option String) (s : State) : Outcome :=
  match optarg with
  | some a => .ok { s with config := { s.config with vm_name := some a } }
  | none => xlmon_init_config_case_c optarg s

/-- The switch of `xlmon_init_config` (lines 178-239) for one value returned
by `getopt`. -/
def xlmon_init_config_switch (g : getopt_result) (s : State) : Outcome :=
  if g.c = 'S' then .ok { s with config := { s.config with do_shutdown := 0 } }
  else if g.c = 'R' then .ok { s with config := { s.config with do_restart := 0 } }
  else if g.c = 'T' then .ok { s with config := { s.config with do_term := 0 } }
  else if g.c = 'D' then .ok { s with config := { s.config with do_destroy := 0 } }
  else if g.c = 'I' then .ok { s with config := { s.config with do_ignore_vm_shutdown := 1 } }
  else if g.c = 'A' then
    .ok { s with config := { s.config with do_recover_stale_vm_id := 1 } }
  else if g.c = 'n' then xlmon_init_config_case_n g.optarg s
  else if g.c = 'c' then xlmon_init_config_case_c g.optarg s
  else if g.c = 'p' then xlmon_init_config_case_p g.optarg s
  else xlmon_init_config_default s

/-- The `while` loop of `xlmon_init_config` (lines 177-240) over the values
`getopt` returns before -1. -/
def xlmon_init_config_loop : List getopt_result → State → Outcome
  | [], s => .ok s
  | g :: rest, s => (xlmon_init_config_switch g s).andThen (xlmon_init_config_loop rest)

/-- `xlmon_init_config` (lines 173-254): the loop, then the check that a name
is present and, when restart is enabled, a config file too. -/
def xlmon_init_config (opts : List getopt_result) (s : State) : Outcome :=
  (xlmon_init_config_loop opts s).andThen fun s1 =>
    if s1.config.vm_name = none ∨
        (s1.config.do_restart = 1 ∧ s1.config.vm_config_file = none) then
      usage s1
    else
      .ok s1

/-- The state `main` sets up before it parses the command line (lines
285-302): the three structures zeroed, then the default run info and policy.
In libxl the shutdown reason with value 0 is poweroff. -/
def main_init (env : Env) : State :=
  { ctx := { ctx := false, logger := false,
             vminfo := { shutdown := false, shutdown_reason := .poweroff }, vmid := 0 }
    config := { do_shutdown := 1, do_restart := 1, do_term := 1, do_destroy := 1,
                do_ignore_vm_shutdown := 0, do_recover_stale_vm_id := 0,
                vm_name := none, vm_config_file := none }
    run_info := { running := 1, term_received := 0, period := DEFAULT_RUN_PERIOD }
    env := env
    trace := [] }

/-! ## Vocabulary of the properties -/

/-- The event is a `Destroy` (`libxl_domain_destroy`). -/
def Event.is_destroy : Event → Bool
  | .libxl_domain_destroy _ => true
  | _ => false

/-- The event is a timed wait. -/
def Event.is_sleep : Event → Bool
  | .sleep _ => true
  | _ => false

/-- The event is one of the two shutdown primitives of `vm_shutdown`. -/
def Event.is_shutdown_primitive : Event → Bool
  | .libxl_domain_shutdown _ => true
  | .libxl_send_trigger _ => true
  | _ => false

/-- The event is a status query (`libxl_domain_info`). -/
def Event.is_domain_info : Event → Bool
  | .libxl_domain_info _ => true
  | _ => false

/-- The event is an identity resolution by name (`libxl_name_to_domid`). -/
def Event.is_name_to_domid : Event → Bool
  | .libxl_name_to_domid _ => true
  | _ => false

/-- The event belongs to the launch of the creation tool (`fork`, `execlp`). -/
def Event.is_launch : Event → Bool
  | .fork => true
  | .execlp _ => true
  | _ => false

/-- The calls `program_shutdown` makes for a context. -/
def release_events (c : xlmon_ctx) : List Event :=
  (if c.ctx then [Event.libxl_ctx_free] else []) ++
    (if c.logger then [Event.xtl_logger_destroy] else [])

/-- From state `s` to state `t` the program left `config` alone, only added
calls to the trace, and added no `Destroy`. -/
def no_destroy (s t : State) : Prop :=
  t.config = s.config ∧
    ∃ evs, t.trace = s.trace ++ evs ∧ ∀ e ∈ evs, e.is_destroy = false

/-- The same state with `pre` put before its trace. -/
def State.prepend (pre : List Event) (s : State) : State :=
  { s with trace := pre ++ s.trace }

/-- The same outcome with `pre` put before its trace. -/
def Outcome.prepend (pre : List Event) : Outcome → Outcome
  | .ok s => .ok (s.prepend pre)
  | .exited c s => .exited c (s.prepend pre)
  | .execed s => .execed (s.prepend pre)

/-- From state `s` to state `t` the program left `config` alone, only added
calls to the trace, and added no shutdown primitive. -/
def no_shutdown_primitive (s t : State) : Prop :=
  t.config = s.config ∧
    ∃ evs, t.trace = s.trace ++ evs ∧ ∀ e ∈ evs, e.is_shutdown_primitive = false

/-- The same state with `do_shutdown` set to `v`. -/
def State.with_do_shutdown (v : Nat) (s : State) : State :=
  { s with config := { s.config with do_shutdown := v } }

/-- The same outcome with `do_shutdown` set to `v`. -/
def Outcome.with_do_shutdown (v : Nat) : Outcome → Outcome
  | .ok s => .ok (s.with_do_shutdown v)
  | .exited c s => .exited c (s.with_do_shutdown v)
  | .execed s => .execed (s.with_do_shutdown v)

/-- The option character `c` is among the values returned by `getopt`. -/
def option_given (c : Char) (opts : List getopt_result) : Bool :=
  opts.any (fun g => decide (g.c = c))

/-- The value returned by `getopt` is a recognised option with a well-formed
value: one of the six flags, `n` or `c` with an argument, or `p` with an
argument whose value, read by `strtoul` and cut to 32 bits, is not 0. -/
def well_formed (g : getopt_result) : Bool :=
  decide (g.c = 'S') || decide (g.c = 'R') || decide (g.c = 'T') || decide (g.c = 'D') ||
  decide (g.c = 'I') || decide (g.c = 'A') ||
  ((decide (g.c = 'n') || decide (g.c = 'c')) && g.optarg.isSome) ||
  (decide (g.c = 'p') &&
    match g.optarg with
    | some a => decide (strtoul a % UINT_MOD ≠ 0)
    | none => false)

/-- The argument of the last `p` among the values returned by `getopt`. -/
def last_p : List getopt_result → Option String
  | [] => none
  | g :: rest =>
    match last_p rest with
    | some a => some a
    | none => if g.c = 'p' then g.optarg else none

/-- What the loop of `xlmon_init_config` has done when it leads from `s` to
`t` over the options `opts`: every option was well formed, each flag field is
set when its flag was given, a name or config file is present when it was
before or was given, the period is that of the last `p`, and nothing else was
written. -/
def parsed_by (opts : List getopt_result) (s t : State) : Prop :=
  (∀ g ∈ opts, well_formed g = true) ∧
  t.config.do_shutdown = (if option_given 'S' opts = true then 0 else s.config.do_shutdown) ∧
  t.config.do_restart = (if option_given 'R' opts = true then 0 else s.config.do_restart) ∧
  t.config.do_term = (if option_given 'T' opts = true then 0 else s.config.do_term) ∧
  t.config.do_destroy = (if option_given 'D' opts = true then 0 else s.config.do_destroy) ∧
  t.config.do_ignore_vm_shutdown =
    (if option_given 'I' opts = true then 1 else s.config.do_ignore_vm_shutdown) ∧
  t.config.do_recover_stale_vm_id =
    (if option_given 'A' opts = true then 1 else s.config.do_recover_stale_vm_id) ∧
  t.config.vm_name.isSome = (s.config.vm_name.isSome || option_given 'n' opts) ∧
  t.config.vm_config_file.isSome = (s.config.vm_config_file.isSome || option_given 'c' opts) ∧
  t.run_info.period =
    (match last_p opts with
     | some a => strtoul a % UINT_MOD
     | none => s.run_info.period) ∧
  (s.run_info.period ≠ 0 → t.run_info.period ≠ 0) ∧
  t.run_info.running = s.run_info.running ∧
  t.run_info.term_received = s.run_info.term_received ∧
  t.ctx = s.ctx ∧ t.env = s.env ∧ t.trace = s.trace

/-! ## Concrete states, used to instantiate the theorems -/

/-- The stream that starts with the entries of `l` and continues with `d`. -/
def stream_of {α : Type} (l : List α) (d : α) : Nat → α :=
  fun n => l.getD n d

/-- An environment given by the first results of each kind of call; afterwards
polls and lookups fail, libxl actions return 0, `fork` fails and no signal
arrives. -/
def sample_env (infos : List (Option libxl_dominfo)) (domids : List (Option Nat))
    (rcs : List Int) (pids : List Int) : Env :=
  { domain_info := stream_of infos none
    name_to_domid := stream_of domids none
    domain_destroy := stream_of rcs 0
    domain_shutdown := stream_of rcs 0
    send_trigger := stream_of rcs 0
    fork := stream_of pids (-1)
    execlp := stream_of [] true
    signals := stream_of [] [] }

/-- The configuration `main` sets up before parsing (lines 295-302), with a
DomU name and a config file. -/
def default_config : xlmon_config :=
  { do_shutdown := 1
    do_restart := 1
    do_term := 1
    do_destroy := 1
    do_ignore_vm_shutdown := 0
    do_recover_stale_vm_id := 0
    vm_name := some "domu"
    vm_config_file := some "/etc/xen/domu.cfg" }

/-- The run info `main` sets up before parsing (lines 290-292). -/
def default_run_info : xlmon_run_info :=
  { running := 1, term_received := 0, period := DEFAULT_RUN_PERIOD }

/-- A state at the loop-top check: both handles allocated, DomU id 7, no call
made yet. -/
def sample_state (config : xlmon_config) (run_info : xlmon_run_info) (env : Env) : State :=
  { ctx := { ctx := true, logger := true,
             vminfo := { shutdown := false, shutdown_reason := .unknown }, vmid := 7 }
    config := config
    run_info := run_info
    env := env
    trace := [] }

/-- A status: the DomU is shut down for the given reason. -/
def status_shutdown (reason : libxl_shutdown_reason) : libxl_dominfo :=
  { shutdown := true, shutdown_reason := reason }

/-- A status: the DomU is up. -/
def status_up : libxl_dominfo :=
  { shutdown := false, shutdown_reason := .unknown }

/-- Start of an iteration that observes a reboot under the default policy: the
poll reports shutdown with reason reboot, `fork` returns the child pid 1234 and
the lookup after the launch finds the id 8. -/
def reboot_state : State :=
  sample_state default_config default_run_info
    (sample_env [some (status_shutdown .reboot)] [some 8] [0] [1234])

/-- Start of an iteration that observes a power-off with `-D` (destroy
disabled): the poll reports shutdown with reason poweroff. -/
def poweroff_nodestroy_state : State :=
  sample_state { default_config with do_destroy := 0 } default_run_info
    (sample_env [some (status_shutdown .poweroff)] [] [] [])

/-- Start of an iteration that observes a crash with `-I` (ignore shutdown)
while `libxl_domain_destroy` returns an error. -/
def crash_ignore_state : State :=
  sample_state { default_config with do_ignore_vm_shutdown := 1 } default_run_info
    (sample_env [some (status_shutdown .crash)] [] [-3] [])

/-- Start of an iteration with a pending TERM request while the poll reports a
reboot and the cooperative shutdown request fails. -/
def term_state : State :=
  sample_state default_config { default_run_info with term_received := 1 }
    (sample_env [some (status_shutdown .reboot)] [] [-3] [])

/-- Start of an iteration in which the DomU id is stale and recovery is
disabled (no `-A`). -/
def stale_state : State :=
  sample_state default_config default_run_info (sample_env [none] [] [] [])

/-- Start of an iteration in which the DomU id is stale, recovery is enabled
(`-A`) and the lookup by name fails. -/
def stale_lookup_fails_state : State :=
  sample_state { default_config with do_recover_stale_vm_id := 1 } default_run_info
    (sample_env [none] [none] [] [])

/-- Start of an iteration in which the DomU id is stale, recovery is enabled
(`-A`), the lookup by name finds the id 8 and the second status query fails. -/
def stale_second_poll_fails_state : State :=
  sample_state { default_config with do_recover_stale_vm_id := 1 } default_run_info
    (sample_env [none, none] [some 8] [] [])

/-- Start of an iteration in which the DomU id is stale, recovery is enabled
(`-A`), the lookup by name finds the id 8 and the second status query reports a
DomU that is up. -/
def stale_recovered_state : State :=
  sample_state { default_config with do_recover_stale_vm_id := 1 } default_run_info
    (sample_env [none, some status_up] [some 8] [] [])

/-- Start of an iteration that observes a reboot under the default policy,
where `fork` returns the child pid 1234 and the lookup after the launch
fails. -/
def reboot_lookup_fails_state : State :=
  sample_state default_config default_run_info
    (sample_env [some (status_shutdown .reboot)] [none] [0] [1234])

/-- A state in which the cooperative shutdown request and the power trigger
both fail. -/
def shutdown_refused_state : State :=
  sample_state default_config default_run_info (sample_env [] [] [-3] [])

/-- Start of an iteration that observes a reboot with `-R` (restart disabled)
while destroy is enabled. -/
def reboot_norestart_state : State :=
  sample_state { default_config with do_restart := 0 } default_run_info
    (sample_env [some (status_shutdown .reboot)] [] [] [])

/-- A state at the call of `vm_create_with_xl_command` in which `fork` returns
the child pid 1234 and the lookup after the launch finds the id 9. -/
def launch_state : State :=
  sample_state default_config default_run_info (sample_env [] [some 9] [] [1234])

/-- A state at the call of `vm_create_with_xl_command` in which `fork` fails. -/
def launch_fails_state : State :=
  sample_state default_config default_run_info (sample_env [] [] [] [-1])

/-- A state with `-T` (no shutdown on TERM), in which TERM is handled like
INT. -/
def noterm_state : State :=
  sample_state { default_config with do_term := 0 } default_run_info
    (sample_env [] [] [] [])

/-- Start of an iteration that observes a power-off with `-S -D` (shutdown and
destroy disabled). -/
def poweroff_noshutdown_nodestroy_state : State :=
  sample_state { default_config with do_shutdown := 0, do_destroy := 0 } default_run_info
    (sample_env [some (status_shutdown .poweroff)] [] [] [])

/-- An environment in which nothing succeeds and no signal arrives. -/
def quiet_env : Env :=
  sample_env [] [] [] []

/-- The values `getopt` returns for `-n domu -D -p 30 -R -D`. -/
def sample_options : List getopt_result :=
  [⟨'n', some "domu"⟩, ⟨'D', none⟩, ⟨'p', some "30"⟩, ⟨'R', none⟩, ⟨'D', none⟩]

/-- The values `getopt` returns for `-n domu -c /etc/xen/domu.cfg -p 2147483648`. -/
def wrap_options : List getopt_result :=
  [⟨'n', some "domu"⟩, ⟨'c', some "/etc/xen/domu.cfg"⟩, ⟨'p', some "2147483648"⟩]

/-- Start of an iteration that observes a reboot under the default policy with
the period `2^31`. -/
def wrap_reboot_state : State :=
  sample_state default_config { default_run_info with period := 2147483648 }
    (sample_env [some (status_shutdown .reboot)] [some 8] [0] [1234])

/-! ## Lemmas on the building blocks -/

theorem andThen_ok (s : State) (f : State → Outcome) :
    (Outcome.ok s).andThen f = f s := rfl

theorem andThen_exited (c : Nat) (s : State) (f : State → Outcome) :
    (Outcome.exited c s).andThen f = .exited c s := rfl

theorem andThen_execed (s : State) (f : State → Outcome) :
    (Outcome.execed s).andThen f = .execed s := rfl

/-- `program_shutdown` returns, having made the release calls of the context. -/
theorem program_shutdown_eq (s : State) :
    program_shutdown s = .ok { s with trace := s.trace ++ release_events s.ctx } := by
  unfold program_shutdown release_events State.emit
  cases hc : s.ctx.ctx <;> cases hl : s.ctx.logger <;> simp [hc, hl]

/-- The release calls are no VM action, no wait, no query and no lookup. -/
theorem release_events_kind (c : xlmon_ctx) (e : Event) (h : e ∈ release_events c) :
    e = .libxl_ctx_free ∨ e = .xtl_logger_destroy := by
  unfold release_events at h
  cases hc : c.ctx <;> cases hl : c.logger <;> simp [hc, hl] at h <;> simp [h]

theorem release_events_no_destroy (c : xlmon_ctx) (e : Event) (h : e ∈ release_events c) :
    e.is_destroy = false := by
  rcases release_events_kind c e h with h | h <;> subst h <;> rfl

/-- The release calls are neither lookups nor status queries. -/
theorem release_events_counts (c : xlmon_ctx) :
    (release_events c).countP Event.is_name_to_domid = 0 ∧
    (release_events c).countP Event.is_domain_info = 0 := by
  unfold release_events
  cases c.ctx <;> cases c.logger <;> simp [Event.is_name_to_domid, Event.is_domain_info]

/-! ## The poll step, case by case -/

/-- The first status query succeeds: the poll step stores the status. -/
theorem main_loop_poll_direct (s : State) (i : libxl_dominfo)
    (h0 : s.env.domain_info 0 = some i) :
    main_loop_poll s = .ok
      { s with
        ctx := { s.ctx with vminfo := i }
        env := { s.env with domain_info := next s.env.domain_info }
        trace := s.trace ++ [Event.libxl_domain_info s.ctx.vmid] } := by
  unfold main_loop_poll
  simp [libxl_domain_info, h0, State.emit]

/-- The first status query fails and recovery is disabled: exit code 4. -/
theorem main_loop_poll_stale_fatal (s : State)
    (h0 : s.env.domain_info 0 = none) (hr : s.config.do_recover_stale_vm_id = 0) :
    main_loop_poll s = .exited 4
      { s with
        env := { s.env with domain_info := next s.env.domain_info }
        trace := s.trace ++ Event.libxl_domain_info s.ctx.vmid :: release_events s.ctx } := by
  unfold main_loop_poll
  simp [libxl_domain_info, h0, hr, State.emit, program_shutdown_due_to_stale_vmid,
    program_shutdown_eq, andThen_ok]

/-- The first status query fails, recovery is enabled and the lookup by name
fails: exit code 3, from `vm_name_to_vmid`. -/
theorem main_loop_poll_lookup_fails (s : State)
    (h0 : s.env.domain_info 0 = none) (hr : s.config.do_recover_stale_vm_id ≠ 0)
    (h1 : s.env.name_to_domid 0 = none) :
    main_loop_poll s = .exited 3
      { s with
        env := { s.env with domain_info := next s.env.domain_info
                            name_to_domid := next s.env.name_to_domid }
        trace := s.trace ++ Event.libxl_domain_info s.ctx.vmid ::
          Event.libxl_name_to_domid s.config.vm_name :: release_events s.ctx } := by
  unfold main_loop_poll
  simp [libxl_domain_info, h0, hr, h1, State.emit, vm_name_to_vmid, libxl_name_to_domid,
    program_shutdown_eq, andThen_ok, andThen_exited]

/-- The first status query fails, recovery is enabled, the lookup by name finds
`d` and the second status query fails: exit code 4. -/
theorem main_loop_poll_second_fails (s : State) (d : Nat)
    (h0 : s.env.domain_info 0 = none) (hr : s.config.do_recover_stale_vm_id ≠ 0)
    (h1 : s.env.name_to_domid 0 = some d) (h2 : s.env.domain_info 1 = none) :
    main_loop_poll s = .exited 4
      { s with
        ctx := { s.ctx with vmid := d }
        env := { s.env with domain_info := next (next s.env.domain_info)
                            name_to_domid := next s.env.name_to_domid }
        trace := s.trace ++ Event.libxl_domain_info s.ctx.vmid ::
          Event.libxl_name_to_domid s.config.vm_name :: Event.libxl_domain_info d ::
          release_events { s.ctx with vmid := d } } := by
  unfold main_loop_poll
  simp [libxl_domain_info, h0, hr, h1, h2, next, State.emit, vm_name_to_vmid,
    libxl_name_to_domid, program_shutdown_due_to_stale_vmid, program_shutdown_eq, andThen_ok]

/-- The first status query fails, recovery is enabled, the lookup by name finds
`d` and the second status query yields `j`: the poll step stores both. -/
theorem main_loop_poll_recovered (s : State) (d : Nat) (j : libxl_dominfo)
    (h0 : s.env.domain_info 0 = none) (hr : s.config.do_recover_stale_vm_id ≠ 0)
    (h1 : s.env.name_to_domid 0 = some d) (h2 : s.env.domain_info 1 = some j) :
    main_loop_poll s = .ok
      { s with
        ctx := { s.ctx with vmid := d, vminfo := j }
        env := { s.env with domain_info := next (next s.env.domain_info)
                            name_to_domid := next s.env.name_to_domid }
        trace := s.trace ++ [Event.libxl_domain_info s.ctx.vmid,
          Event.libxl_name_to_domid s.config.vm_name, Event.libxl_domain_info d] } := by
  unfold main_loop_poll
  simp [libxl_domain_info, h0, hr, h1, h2, next, State.emit, vm_name_to_vmid,
    libxl_name_to_domid, andThen_ok]

/-- A poll that yields a status leaves `run_info` and `config` alone, and the
iteration continues with the rest of the loop body. -/
theorem main_loop_poll_ok_frame (s s1 : State) (h : main_loop_poll s = .ok s1) :
    s1.run_info = s.run_info ∧ s1.config = s.config ∧
      main_loop_body s = main_loop_act s1 := by
  refine ⟨?_, ?_, by simp [main_loop_body, h, andThen_ok]⟩ <;>
  · unfold main_loop_poll at h
    simp only [libxl_domain_info, vm_name_to_vmid, libxl_name_to_domid,
      program_shutdown_due_to_stale_vmid, program_shutdown_eq, Outcome.andThen,
      State.emit] at h
    cases h0 : s.env.domain_info 0 with
    | some i =>
      simp [h0] at h
      subst h
      simp
    | none =>
      by_cases hr : s.config.do_recover_stale_vm_id = 0
      · simp [h0, hr] at h
      · cases h1 : s.env.name_to_domid 0 with
        | none => simp [h0, hr, h1] at h
        | some d =>
          cases h2 : s.env.domain_info 1 with
          | none => simp [h0, hr, h1, h2, next] at h
          | some j =>
            simp [h0, hr, h1, h2, next] at h
            subst h
            simp

/-! ## The actions -/

/-- What `vm_shutdown` does: it returns; it leaves `run_info`, `config` and
`ctx` alone; when `do_shutdown = 1` it requests the cooperative shutdown and,
only when that call returned nonzero, sends the power trigger; otherwise it
makes no call. -/
theorem vm_shutdown_frame (s : State) :
    ∃ s2, vm_shutdown s = .ok s2 ∧
      s2.run_info = s.run_info ∧ s2.config = s.config ∧ s2.ctx = s.ctx ∧
      s2.trace = s.trace ++
        (if s.config.do_shutdown = 1 then
          Event.libxl_domain_shutdown s.ctx.vmid ::
            (if s.env.domain_shutdown 0 ≠ 0 then [Event.libxl_send_trigger s.ctx.vmid] else [])
          else []) := by
  unfold vm_shutdown
  by_cases hs : s.config.do_shutdown = 1 <;>
  by_cases hr : s.env.domain_shutdown 0 = 0 <;>
  simp [hs, hr, libxl_domain_shutdown, libxl_send_trigger, State.emit]

/-- The calls of `vm_shutdown` are shutdown primitives only. -/
theorem vm_shutdown_events_kind (s : State) (e : Event)
    (h : e ∈ (if s.config.do_shutdown = 1 then
          Event.libxl_domain_shutdown s.ctx.vmid ::
            (if s.env.domain_shutdown 0 ≠ 0 then [Event.libxl_send_trigger s.ctx.vmid] else [])
          else [])) :
    e.is_shutdown_primitive = true := by
  by_cases hs : s.config.do_shutdown = 1 <;>
  by_cases hr : s.env.domain_shutdown 0 = 0 <;>
  simp [hs, hr] at h
  · subst h; rfl
  · rcases h with h | h <;> subst h <;> rfl

/-- A shutdown primitive is no destroy, no launch and no wait. -/
theorem shutdown_primitive_kind (e : Event) (h : e.is_shutdown_primitive = true) :
    e.is_destroy = false ∧ e.is_launch = false ∧ e.is_sleep = false := by
  cases e <;> simp [Event.is_shutdown_primitive] at h <;>
    simp [Event.is_destroy, Event.is_launch, Event.is_sleep]

/-- The status stored in `ctx.vminfo` has no influence on `vm_shutdown`. -/
theorem vm_shutdown_vminfo (s : State) (i : libxl_dominfo) (s2 : State)
    (h : vm_shutdown s = .ok s2) :
    vm_shutdown { s with ctx := { s.ctx with vminfo := i } } =
      .ok { s2 with ctx := { s2.ctx with vminfo := i } } := by
  unfold vm_shutdown at h ⊢
  by_cases hs : s.config.do_shutdown = 1
  · by_cases hr : s.env.domain_shutdown 0 = 0
    · have e1 : (libxl_domain_shutdown s).1 = 0 := hr
      have e2 : (libxl_domain_shutdown { s with ctx := { s.ctx with vminfo := i } }).1 = 0 := hr
      simp only [hs, e1, e2, if_true, ne_eq, not_true_eq_false, if_false] at h ⊢
      cases h
      rfl
    · have e1 : (libxl_domain_shutdown s).1 ≠ 0 := hr
      have e2 : (libxl_domain_shutdown { s with ctx := { s.ctx with vminfo := i } }).1 ≠ 0 := hr
      simp only [hs, e1, e2, if_true, ne_eq, not_false_eq_true] at h ⊢
      cases h
      rfl
  · simp only [hs, if_false] at h ⊢
    cases h
    rfl

/-- What `vm_create_with_xl_command` does: it returns, exits with code 3 or
has its image replaced; it issues `fork` first and no `Destroy`; it leaves
`run_info` and `config` alone. -/
theorem vm_create_with_xl_command_frame (s : State) :
    (vm_create_with_xl_command s).state.run_info = s.run_info ∧
    (vm_create_with_xl_command s).state.config = s.config ∧
    ∃ rest, (vm_create_with_xl_command s).state.trace = s.trace ++ Event.fork :: rest ∧
      ∀ e ∈ rest, e.is_destroy = false := by
  unfold vm_create_with_xl_command
  simp only [fork, execlp, sleep, vm_name_to_vmid, libxl_name_to_domid, program_shutdown_eq,
    Outcome.andThen, State.emit]
  by_cases h1 : s.env.fork 0 < 0
  · simp [h1, Outcome.state]
  · by_cases h2 : s.env.fork 0 = 0
    · cases h3 : s.env.execlp 0 <;> simp [h2, h3, Outcome.state, Event.is_destroy]
    · cases h3 : s.env.name_to_domid 0 with
      | none =>
        simp only [h1, h2, h3, Outcome.state, if_true, if_false]
        refine ⟨trivial, trivial, _, by simp; rfl, ?_⟩
        intro e he
        simp at he
        rcases he with he | he | he
        · subst he; rfl
        · subst he; rfl
        · rcases release_events_kind _ _ he with h | h <;> subst h <;> rfl
      | some d =>
        simp [h1, h2, h3, Outcome.state, Event.is_destroy]

/-- How `vm_create_with_xl_command` ends, by the results of `fork`, `execlp`
and `libxl_name_to_domid`. -/
theorem vm_create_with_xl_command_outcome (s : State) :
    (s.env.fork 0 < 0 → ∃ s3, vm_create_with_xl_command s = .ok s3) ∧
    (s.env.fork 0 = 0 → s.env.execlp 0 = false →
      ∃ s3, vm_create_with_xl_command s = .ok s3) ∧
    (s.env.fork 0 = 0 → s.env.execlp 0 = true →
      ∃ s3, vm_create_with_xl_command s = .execed s3) ∧
    (0 < s.env.fork 0 → ∀ d, s.env.name_to_domid 0 = some d →
      ∃ s3, vm_create_with_xl_command s = .ok s3) ∧
    (0 < s.env.fork 0 → s.env.name_to_domid 0 = none →
      ∃ s3, vm_create_with_xl_command s = .exited 3 s3) := by
  unfold vm_create_with_xl_command
  simp only [fork, execlp, sleep, vm_name_to_vmid, libxl_name_to_domid, program_shutdown_eq,
    andThen_ok, State.emit]
  refine ⟨?_, ?_, ?_, ?_, ?_⟩
  · intro h
    simp [h]
  · intro h hx
    simp [h, hx]
  · intro h hx
    simp [h, hx]
  · intro h d hd
    have h1 : ¬ s.env.fork 0 < 0 := by omega
    have h2 : ¬ s.env.fork 0 = 0 := by omega
    simp [h1, h2, hd]
  · intro h hd
    have h1 : ¬ s.env.fork 0 < 0 := by omega
    have h2 : ¬ s.env.fork 0 = 0 := by omega
    simp [h1, h2, hd]

/-- The reboot branch with restart enabled (lines 368-378) ends in
`vm_create_with_xl_command`, run after the wait and the optional destroy. -/
theorem main_loop_act_reboot_restart (s1 : State)
    (hterm : s1.run_info.term_received ≠ 1)
    (hshut : s1.ctx.vminfo.shutdown = true)
    (hreason : s1.ctx.vminfo.shutdown_reason = .reboot)
    (hrestart : s1.config.do_restart = 1) :
    ∃ s2, main_loop_act s1 = vm_create_with_xl_command s2 ∧
      s2.trace = s1.trace ++ Event.sleep (s1.run_info.period * 2 % UINT_MOD) ::
        (if s1.config.do_destroy = 1 then [Event.libxl_domain_destroy s1.ctx.vmid] else []) ∧
      s2.config = s1.config ∧ s2.ctx = s1.ctx ∧ s2.run_info = s1.run_info ∧
      s2.env.fork = s1.env.fork ∧ s2.env.execlp = s1.env.execlp ∧
      s2.env.name_to_domid = s1.env.name_to_domid := by
  unfold main_loop_act
  by_cases hd : s1.config.do_destroy = 1
  · exact ⟨(libxl_domain_destroy (sleep (s1.run_info.period * 2 % UINT_MOD) s1)).2,
      by simp [hterm, hshut, hreason, hrestart, hd, sleep, State.emit, vm_destroy, andThen_ok],
      by simp [libxl_domain_destroy, sleep, State.emit, hd], rfl, rfl, rfl, rfl, rfl, rfl⟩
  · exact ⟨sleep (s1.run_info.period * 2 % UINT_MOD) s1,
      by simp [hterm, hshut, hreason, hrestart, hd, sleep, State.emit, andThen_ok],
      by simp [sleep, State.emit, hd], rfl, rfl, rfl, rfl, rfl, rfl⟩

/-- What the branch for a shutdown with a reason other than reboot does
(lines 385-402): the wait of `period * 2` and the destroy are issued together,
only when `do_destroy = 1`; then either `running` is cleared or `period` is
slept. -/
theorem main_loop_act_other_shutdown (s1 : State)
    (hterm : s1.run_info.term_received ≠ 1)
    (hshut : s1.ctx.vminfo.shutdown = true)
    (hreason : s1.ctx.vminfo.shutdown_reason ≠ .reboot) :
    ∃ s3, main_loop_act s1 = .ok s3 ∧
      s3.trace = s1.trace ++
        (if s1.config.do_destroy = 1 then
          [Event.sleep (s1.run_info.period * 2 % UINT_MOD),
           Event.libxl_domain_destroy s1.ctx.vmid] else []) ++
        (if s1.config.do_ignore_vm_shutdown = 0 then [] else [Event.sleep s1.run_info.period]) ∧
      s3.run_info.running = (if s1.config.do_ignore_vm_shutdown = 0 then 0
        else s1.run_info.running) ∧
      s3.run_info.term_received = s1.run_info.term_received ∧
      s3.run_info.period = s1.run_info.period ∧
      s3.config = s1.config := by
  unfold main_loop_act
  by_cases hd : s1.config.do_destroy = 1 <;>
  by_cases hi : s1.config.do_ignore_vm_shutdown = 0 <;>
  simp [hterm, hshut, hreason, hd, hi, sleep, State.emit, vm_destroy, andThen_ok,
    libxl_domain_destroy, signal_stop_running]

/-- Outside the reboot branch with restart enabled, the rest of the loop body
returns. -/
theorem main_loop_act_returns (s1 : State)
    (h : ¬ (s1.run_info.term_received ≠ 1 ∧ s1.ctx.vminfo.shutdown = true ∧
      s1.ctx.vminfo.shutdown_reason = .reboot ∧ s1.config.do_restart = 1)) :
    ∃ s3, main_loop_act s1 = .ok s3 := by
  by_cases ht : s1.run_info.term_received = 1
  · obtain ⟨s2, h2, _⟩ := vm_shutdown_frame s1
    unfold main_loop_act
    rw [if_pos ht, h2, andThen_ok]
    exact ⟨_, rfl⟩
  · by_cases hs : s1.ctx.vminfo.shutdown = true
    · by_cases hb : s1.ctx.vminfo.shutdown_reason = .reboot
      · have hre : ¬ s1.config.do_restart = 1 := fun hre => h ⟨ht, hs, hb, hre⟩
        unfold main_loop_act
        rw [if_neg ht, if_pos hs, if_pos hb, if_neg hre]
        exact ⟨_, rfl⟩
      · obtain ⟨s3, h3, _⟩ := main_loop_act_other_shutdown s1 ht hs hb
        exact ⟨s3, h3⟩
    · unfold main_loop_act
      rw [if_neg ht, if_neg hs]
      exact ⟨_, rfl⟩

/-! ## Destroy is gated by `do_destroy` -/

theorem no_destroy_refl (s : State) : no_destroy s s :=
  ⟨rfl, [], by simp, by simp⟩

theorem no_destroy_trans (s t u : State) (h1 : no_destroy s t) (h2 : no_destroy t u) :
    no_destroy s u := by
  obtain ⟨c1, e1, t1, n1⟩ := h1
  obtain ⟨c2, e2, t2, n2⟩ := h2
  refine ⟨c2.trans c1, e1 ++ e2, by rw [t2, t1, List.append_assoc], ?_⟩
  intro e he
  rcases List.mem_append.mp he with h | h
  · exact n1 e h
  · exact n2 e h

/-- Adding calls that are no destroy, with `config` kept. -/
theorem no_destroy_of_trace (s t : State) (evs : List Event) (hc : t.config = s.config)
    (ht : t.trace = s.trace ++ evs) (hn : ∀ e ∈ evs, e.is_destroy = false) :
    no_destroy s t :=
  ⟨hc, evs, ht, hn⟩

theorem no_destroy_andThen (s : State) (o : Outcome) (f : State → Outcome)
    (h : no_destroy s o.state) (hf : ∀ s1, o = .ok s1 → no_destroy s1 (f s1).state) :
    no_destroy s (o.andThen f).state := by
  cases o with
  | ok s1 => exact no_destroy_trans s s1 _ h (hf s1 rfl)
  | exited c s1 => exact h
  | execed s1 => exact h

/-- The poll step never destroys. -/
theorem main_loop_poll_no_destroy (s : State) : no_destroy s (main_loop_poll s).state := by
  cases h0 : s.env.domain_info 0 with
  | some i =>
    rw [main_loop_poll_direct s i h0]
    exact no_destroy_of_trace _ _ _ rfl rfl (by simp [Event.is_destroy])
  | none =>
    by_cases hr : s.config.do_recover_stale_vm_id = 0
    · rw [main_loop_poll_stale_fatal s h0 hr]
      refine no_destroy_of_trace _ _ _ rfl rfl ?_
      intro e he
      rcases List.mem_cons.mp he with h | h
      · subst h; rfl
      · exact release_events_no_destroy _ e h
    · cases h1 : s.env.name_to_domid 0 with
      | none =>
        rw [main_loop_poll_lookup_fails s h0 hr h1]
        refine no_destroy_of_trace _ _ _ rfl rfl ?_
        intro e he
        rcases List.mem_cons.mp he with h | h
        · subst h; rfl
        · rcases List.mem_cons.mp h with h | h
          · subst h; rfl
          · exact release_events_no_destroy _ e h
      | some d =>
        cases h2 : s.env.domain_info 1 with
        | none =>
          rw [main_loop_poll_second_fails s d h0 hr h1 h2]
          refine no_destroy_of_trace _ _ _ rfl rfl ?_
          intro e he
          rcases List.mem_cons.mp he with h | h
          · subst h; rfl
          · rcases List.mem_cons.mp h with h | h
            · subst h; rfl
            · rcases List.mem_cons.mp h with h | h
              · subst h; rfl
              · exact release_events_no_destroy _ e h
        | some j =>
          rw [main_loop_poll_recovered s d j h0 hr h1 h2]
          exact no_destroy_of_trace _ _ _ rfl rfl (by simp [Event.is_destroy])

theorem vm_shutdown_no_destroy (s : State) : no_destroy s (vm_shutdown s).state := by
  obtain ⟨s2, h2, _, hc, _, ht⟩ := vm_shutdown_frame s
  rw [h2]
  refine no_destroy_of_trace _ _ _ hc ht ?_
  intro e he
  exact (shutdown_primitive_kind e (vm_shutdown_events_kind s e he)).1

theorem vm_create_with_xl_command_no_destroy (s : State) :
    no_destroy s (vm_create_with_xl_command s).state := by
  obtain ⟨_, hc, rest, ht, hn⟩ := vm_create_with_xl_command_frame s
  refine no_destroy_of_trace _ _ _ hc ht ?_
  intro e he
  rcases List.mem_cons.mp he with h | h
  · subst h; rfl
  · exact hn e h

theorem sleep_no_destroy (n : Nat) (s : State) : no_destroy s (sleep n s) :=
  no_destroy_of_trace _ _ [Event.sleep n] rfl rfl (by simp [Event.is_destroy])

/-- With `do_destroy` different from 1 the rest of the loop body never
destroys. -/
theorem main_loop_act_no_destroy (s : State) (hd : s.config.do_destroy ≠ 1) :
    no_destroy s (main_loop_act s).state := by
  unfold main_loop_act
  by_cases ht : s.run_info.term_received = 1
  · rw [if_pos ht]
    refine no_destroy_andThen s _ _ (vm_shutdown_no_destroy s) ?_
    intro s1 _
    exact no_destroy_of_trace _ _ [] rfl (by simp [Outcome.state]) (by simp)
  · rw [if_neg ht]
    by_cases hs : s.ctx.vminfo.shutdown = true
    · rw [if_pos hs]
      by_cases hb : s.ctx.vminfo.shutdown_reason = .reboot
      · rw [if_pos hb]
        by_cases hre : s.config.do_restart = 1
        · rw [if_pos hre]
          have hd1 : (sleep (s.run_info.period * 2 % UINT_MOD) s).config.do_destroy ≠ 1 := hd
          simp only [if_neg hd1]
          refine no_destroy_andThen s _ _ (sleep_no_destroy _ s) ?_
          intro s1 _
          exact vm_create_with_xl_command_no_destroy s1
        · rw [if_neg hre]
          exact sleep_no_destroy _ s
      · rw [if_neg hb, if_neg hd]
        refine no_destroy_andThen s _ _ (no_destroy_refl s) ?_
        intro s1 _
        by_cases hi : s1.config.do_ignore_vm_shutdown = 0
        · rw [if_pos hi]
          exact no_destroy_of_trace _ _ [] rfl (by simp [signal_stop_running, Outcome.state])
            (by simp)
        · rw [if_neg hi]
          exact sleep_no_destroy _ s1
    · rw [if_neg hs]
      exact sleep_no_destroy _ s

/-- With `do_destroy` different from 1 one iteration never destroys. -/
theorem main_loop_body_no_destroy (s : State) (hd : s.config.do_destroy ≠ 1) :
    no_destroy s (main_loop_body s).state := by
  unfold main_loop_body
  refine no_destroy_andThen s _ _ (main_loop_poll_no_destroy s) ?_
  intro s1 h1
  have hc : s1.config = s.config := (main_loop_poll_ok_frame s s1 h1).2.1
  exact main_loop_act_no_destroy s1 (by rw [hc]; exact hd)

/-- Running signal handlers changes neither `config` nor the trace, and the
handlers return. -/
theorem deliver_frame (l : List Signal) (s : State) :
    ∃ s1, deliver l s = .ok s1 ∧ s1.config = s.config ∧ s1.trace = s.trace := by
  induction l generalizing s with
  | nil => exact ⟨s, rfl, rfl, rfl⟩
  | cons sig rest ih =>
    have hh : ∃ s0, signal_handler s sig = .ok s0 ∧ s0.config = s.config ∧
        s0.trace = s.trace := by
      cases sig with
      | SIGINT => exact ⟨_, rfl, rfl, rfl⟩
      | SIGTERM =>
        unfold signal_handler
        by_cases ht : s.config.do_term = 1
        · rw [if_pos ht]; exact ⟨_, rfl, rfl, rfl⟩
        · rw [if_neg ht]; exact ⟨_, rfl, rfl, rfl⟩
    obtain ⟨s0, h0, c0, t0⟩ := hh
    obtain ⟨s1, h1, c1, t1⟩ := ih s0
    refine ⟨s1, ?_, c1.trans c0, t1.trans t0⟩
    show (signal_handler s sig).andThen (deliver rest) = .ok s1
    rw [h0, andThen_ok, h1]

theorem deliver_pending_frame (s : State) :
    ∃ s1, deliver_pending s = .ok s1 ∧ s1.config = s.config ∧ s1.trace = s.trace := by
  unfold deliver_pending
  obtain ⟨s1, h1, c1, t1⟩ := deliver_frame (s.env.signals 0)
    { s with env := { s.env with signals := next s.env.signals } }
  exact ⟨s1, h1, c1, t1⟩

/-- With `do_destroy` different from 1 no bounded run of the loop destroys. -/
theorem main_loop_no_destroy (fuel : Nat) (s : State) (hd : s.config.do_destroy ≠ 1) :
    no_destroy s (main_loop fuel s).state := by
  induction fuel generalizing s with
  | zero => exact no_destroy_refl s
  | succ n ih =>
    obtain ⟨s1, h1, c1, t1⟩ := deliver_pending_frame s
    have n1 : no_destroy s s1 := no_destroy_of_trace _ _ [] c1 (by simp [t1]) (by simp)
    have hd1 : s1.config.do_destroy ≠ 1 := by rw [c1]; exact hd
    unfold main_loop
    rw [h1]
    by_cases hrun : s1.run_info.running = 1
    · simp only [hrun, if_true]
      have nb := main_loop_body_no_destroy s1 hd1
      cases hb : main_loop_body s1 with
      | ok s2 =>
        rw [hb] at nb
        have hd2 : s2.config.do_destroy ≠ 1 := by
          have : s2.config = s1.config := nb.1
          rw [this]; exact hd1
        exact no_destroy_trans s s1 _ n1 (no_destroy_trans s1 s2 _ nb (ih s2 hd2))
      | exited c s2 =>
        rw [hb] at nb
        exact no_destroy_trans s s1 _ n1 nb
      | execed s2 =>
        rw [hb] at nb
        exact no_destroy_trans s s1 _ n1 nb
    · simp only [hrun, if_false]
      exact n1

/-! ## The loop body does not read the trace -/

theorem andThen_prepend (o : Outcome) (f : State → Outcome) (pre : List Event)
    (hf : ∀ x, f (x.prepend pre) = (f x).prepend pre) :
    (o.prepend pre).andThen f = (o.andThen f).prepend pre := by
  cases o with
  | ok s => exact hf s
  | exited c s => rfl
  | execed s => rfl

theorem sleep_prepend (n : Nat) (s : State) (pre : List Event) :
    sleep n (s.prepend pre) = (sleep n s).prepend pre := by
  simp [sleep, State.emit, State.prepend]

theorem program_shutdown_prepend (s : State) (pre : List Event) :
    program_shutdown (s.prepend pre) = (program_shutdown s).prepend pre := by
  rw [program_shutdown_eq, program_shutdown_eq]
  simp [State.prepend, Outcome.prepend]

theorem vm_name_to_vmid_prepend (s : State) (pre : List Event) :
    vm_name_to_vmid (s.prepend pre) = (vm_name_to_vmid s).prepend pre := by
  unfold vm_name_to_vmid
  cases h1 : s.env.name_to_domid 0 <;>
  simp [libxl_name_to_domid, h1, State.emit, State.prepend, Outcome.prepend,
    program_shutdown_eq, andThen_ok]

theorem vm_destroy_prepend (s : State) (pre : List Event) :
    vm_destroy (s.prepend pre) = (vm_destroy s).prepend pre := by
  simp [vm_destroy, libxl_domain_destroy, State.emit, State.prepend, Outcome.prepend]

theorem vm_shutdown_prepend (s : State) (pre : List Event) :
    vm_shutdown (s.prepend pre) = (vm_shutdown s).prepend pre := by
  unfold vm_shutdown
  by_cases hs : s.config.do_shutdown = 1 <;>
  by_cases hr : s.env.domain_shutdown 0 = 0 <;>
  simp [hs, hr, libxl_domain_shutdown, libxl_send_trigger, State.emit, State.prepend,
    Outcome.prepend]

theorem vm_create_with_xl_command_prepend (s : State) (pre : List Event) :
    vm_create_with_xl_command (s.prepend pre) =
      (vm_create_with_xl_command s).prepend pre := by
  unfold vm_create_with_xl_command
  by_cases h1 : s.env.fork 0 < 0
  · simp [h1, fork, State.emit, State.prepend, Outcome.prepend]
  · by_cases h2 : s.env.fork 0 = 0
    · cases h3 : s.env.execlp 0 <;>
      simp [h2, h3, fork, execlp, State.emit, State.prepend, Outcome.prepend]
    · have e : fork (s.prepend pre) = ((fork s).1, (fork s).2.prepend pre) := by
        simp [fork, State.emit, State.prepend]
      have f1 : ¬ (fork s).1 < 0 := h1
      have f2 : ¬ (fork s).1 = 0 := h2
      simp only [e, f1, f2, if_false]
      have p : ((fork s).2.prepend pre).run_info = (fork s).2.run_info := rfl
      rw [p, sleep_prepend, vm_name_to_vmid_prepend]

theorem main_loop_act_prepend (s : State) (pre : List Event) :
    main_loop_act (s.prepend pre) = (main_loop_act s).prepend pre := by
  unfold main_loop_act
  have c1 : (s.prepend pre).run_info = s.run_info := rfl
  have c2 : (s.prepend pre).ctx = s.ctx := rfl
  have c3 : (s.prepend pre).config = s.config := rfl
  simp only [c1, c2, c3]
  by_cases ht : s.run_info.term_received = 1
  · simp only [ht, if_true]
    rw [vm_shutdown_prepend]
    exact andThen_prepend _ _ _ (fun x => rfl)
  · simp only [ht, if_false]
    by_cases hs : s.ctx.vminfo.shutdown = true
    · simp only [hs, if_true]
      by_cases hb : s.ctx.vminfo.shutdown_reason = .reboot
      · simp only [hb, if_true]
        by_cases hre : s.config.do_restart = 1
        · simp only [hre, if_true]
          have k1 : (sleep (s.run_info.period * 2 % UINT_MOD) (s.prepend pre)).config =
              s.config := rfl
          have k2 : (sleep (s.run_info.period * 2 % UINT_MOD) s).config = s.config := rfl
          simp only [k1, k2]
          by_cases hd : s.config.do_destroy = 1
          · simp only [hd, if_true]
            rw [sleep_prepend, vm_destroy_prepend]
            exact andThen_prepend _ _ _ (fun x => vm_create_with_xl_command_prepend x pre)
          · simp only [hd, if_false]
            rw [sleep_prepend]
            exact andThen_prepend (.ok _) _ _
              (fun x => vm_create_with_xl_command_prepend x pre)
        · simp only [hre, if_false]
          rw [sleep_prepend]
          rfl
      · simp only [hb, if_false]
        have hk : ∀ x : State,
            (if (x.prepend pre).config.do_ignore_vm_shutdown = 0 then
                signal_stop_running 0 (x.prepend pre)
              else .ok (sleep (x.prepend pre).run_info.period (x.prepend pre))) =
            (if x.config.do_ignore_vm_shutdown = 0 then signal_stop_running 0 x
              else .ok (sleep x.run_info.period x)).prepend pre := by
          intro x
          by_cases hi : x.config.do_ignore_vm_shutdown = 0
          · have hi2 : (x.prepend pre).config.do_ignore_vm_shutdown = 0 := hi
            simp only [hi, hi2, if_true]
            rfl
          · have hi2 : ¬ (x.prepend pre).config.do_ignore_vm_shutdown = 0 := hi
            simp only [hi, hi2, if_false]
            rw [sleep_prepend]
            rfl
        by_cases hd : s.config.do_destroy = 1
        · simp only [hd, if_true]
          rw [sleep_prepend, vm_destroy_prepend]
          exact andThen_prepend _ _ _ hk
        · simp only [hd, if_false]
          exact andThen_prepend (.ok _) _ _ hk
    · simp only [hs, Bool.false_eq_true, if_false]
      rw [sleep_prepend]
      rfl

/-! ## How an iteration and the loop end -/

/-- One iteration returns, exits with code 3 or 4, or has its image
replaced. -/
theorem main_loop_body_outcome (s : State) :
    (∃ s3, main_loop_body s = .ok s3) ∨ (main_loop_body s).exit_code = some 3 ∨
      (main_loop_body s).exit_code = some 4 ∨ ∃ s3, main_loop_body s = .execed s3 := by
  cases hp : main_loop_poll s with
  | exited c s1 =>
    have hb : main_loop_body s = .exited c s1 := by
      unfold main_loop_body; rw [hp, andThen_exited]
    rw [hb]
    cases h0 : s.env.domain_info 0 with
    | some i => rw [main_loop_poll_direct s i h0] at hp; cases hp
    | none =>
      by_cases hr : s.config.do_recover_stale_vm_id = 0
      · rw [main_loop_poll_stale_fatal s h0 hr] at hp
        cases hp
        exact Or.inr (Or.inr (Or.inl rfl))
      · cases h1 : s.env.name_to_domid 0 with
        | none =>
          rw [main_loop_poll_lookup_fails s h0 hr h1] at hp
          cases hp
          exact Or.inr (Or.inl rfl)
        | some d =>
          cases h2 : s.env.domain_info 1 with
          | none =>
            rw [main_loop_poll_second_fails s d h0 hr h1 h2] at hp
            cases hp
            exact Or.inr (Or.inr (Or.inl rfl))
          | some j => rw [main_loop_poll_recovered s d j h0 hr h1 h2] at hp; cases hp
  | execed s1 =>
    cases h0 : s.env.domain_info 0 with
    | some i => rw [main_loop_poll_direct s i h0] at hp; cases hp
    | none =>
      by_cases hr : s.config.do_recover_stale_vm_id = 0
      · rw [main_loop_poll_stale_fatal s h0 hr] at hp; cases hp
      · cases h1 : s.env.name_to_domid 0 with
        | none => rw [main_loop_poll_lookup_fails s h0 hr h1] at hp; cases hp
        | some d =>
          cases h2 : s.env.domain_info 1 with
          | none => rw [main_loop_poll_second_fails s d h0 hr h1 h2] at hp; cases hp
          | some j => rw [main_loop_poll_recovered s d j h0 hr h1 h2] at hp; cases hp
  | ok s1 =>
    have hb : main_loop_body s = main_loop_act s1 := (main_loop_poll_ok_frame s s1 hp).2.2
    rw [hb]
    by_cases hR : s1.run_info.term_received ≠ 1 ∧ s1.ctx.vminfo.shutdown = true ∧
        s1.ctx.vminfo.shutdown_reason = .reboot ∧ s1.config.do_restart = 1
    · obtain ⟨s2, h2, _⟩ := main_loop_act_reboot_restart s1 hR.1 hR.2.1 hR.2.2.1 hR.2.2.2
      rw [h2]
      obtain ⟨o1, o2, o3, o4, o5⟩ := vm_create_with_xl_command_outcome s2
      rcases lt_trichotomy (s2.env.fork 0) 0 with hf | hf | hf
      · exact Or.inl (o1 hf)
      · cases hx : s2.env.execlp 0 with
        | false => exact Or.inl (o2 hf hx)
        | true => exact Or.inr (Or.inr (Or.inr (o3 hf hx)))
      · cases hn : s2.env.name_to_domid 0 with
        | some d => exact Or.inl (o4 hf d hn)
        | none =>
          obtain ⟨s3, h3⟩ := o5 hf hn
          rw [h3]
          exact Or.inr (Or.inl rfl)
    · exact Or.inl (main_loop_act_returns s1 hR)

/-- A bounded run of the loop that is over ended at a loop-top check that found
`running` different from 1, in an exit with code 3 or 4, or in a replaced
process image. -/
theorem main_loop_finished_outcome (fuel : Nat) (s : State) (o : Outcome)
    (h : main_loop fuel s = .finished o) :
    (∃ s3, o = .ok s3 ∧ s3.run_info.running ≠ 1) ∨ o.exit_code = some 3 ∨
      o.exit_code = some 4 ∨ ∃ s3, o = .execed s3 := by
  induction fuel generalizing s with
  | zero => cases h
  | succ n ih =>
    obtain ⟨s1, h1, _, _⟩ := deliver_pending_frame s
    unfold main_loop at h
    rw [h1] at h
    by_cases hrun : s1.run_info.running = 1
    · simp only [hrun, if_true] at h
      rcases main_loop_body_outcome s1 with ⟨s3, hb⟩ | hb | hb | ⟨s3, hb⟩
      · rw [hb] at h
        exact ih s3 h
      · cases hm : main_loop_body s1 with
        | ok s3 => rw [hm] at hb; cases hb
        | exited c s3 =>
          rw [hm] at h hb
          cases h
          exact Or.inr (Or.inl hb)
        | execed s3 => rw [hm] at hb; cases hb
      · cases hm : main_loop_body s1 with
        | ok s3 => rw [hm] at hb; cases hb
        | exited c s3 =>
          rw [hm] at h hb
          cases h
          exact Or.inr (Or.inr (Or.inl hb))
        | execed s3 => rw [hm] at hb; cases hb
      · rw [hb] at h
        cases h
        exact Or.inr (Or.inr (Or.inr ⟨s3, rfl⟩))
    · simp only [hrun, if_false] at h
      cases h
      exact Or.inl ⟨s1, rfl, hrun⟩

/-! ## The shutdown branches of one iteration (C1, C2, C3) -/

/-- C1: in an iteration whose poll succeeds with `term_received = 0`, a status
with `shutdown` set and reason reboot, and `do_restart = 1`, the calls issued
after the poll are, in this order: one wait of `period * 2` seconds (the
`unsigned int` product, which is twice the period for every period below
`2^31`), then `libxl_domain_destroy` exactly when `do_destroy = 1`, then
`vm_create_with_xl_command`, whose first call is `fork` and which issues no
destroy; `running` is not modified. -/
theorem reboot_restart_sequence (s s1 : State)
    (hpoll : main_loop_poll s = .ok s1)
    (hterm : s1.run_info.term_received = 0)
    (hshut : s1.ctx.vminfo.shutdown = true)
    (hreason : s1.ctx.vminfo.shutdown_reason = .reboot)
    (hrestart : s1.config.do_restart = 1) :
    ∃ s2 rest,
      main_loop_body s = vm_create_with_xl_command s2 ∧
      s2.trace = s1.trace ++ Event.sleep (s1.run_info.period * 2 % UINT_MOD) ::
        (if s1.config.do_destroy = 1 then [Event.libxl_domain_destroy s1.ctx.vmid] else []) ∧
      (s1.run_info.period < 2147483648 →
        s1.run_info.period * 2 % UINT_MOD = 2 * s1.run_info.period) ∧
      s2.config = s1.config ∧ s2.ctx = s1.ctx ∧ s2.run_info = s1.run_info ∧
      (main_loop_body s).state.trace = s2.trace ++ Event.fork :: rest ∧
      (∀ e ∈ rest, e.is_destroy = false) ∧
      (main_loop_body s).state.run_info.running = s.run_info.running := by
  obtain ⟨hri, _, hbody⟩ := main_loop_poll_ok_frame s s1 hpoll
  obtain ⟨s2, h2, htr, hc, hx, hr, _⟩ :=
    main_loop_act_reboot_restart s1 (by rw [hterm]; decide) hshut hreason hrestart
  obtain ⟨fri, _, rest, frest, fnd⟩ := vm_create_with_xl_command_frame s2
  refine ⟨s2, rest, by rw [hbody, h2], htr, ?_, hc, hx, hr, by rw [hbody, h2, frest], fnd, ?_⟩
  · intro hp
    unfold UINT_MOD
    omega
  · rw [hbody, h2, fri, hr, hri]

/-- The hypotheses of `reboot_restart_sequence` hold at `reboot_state`. -/
theorem reboot_restart_sequence_witness :
    ∃ s2 rest,
      main_loop_body reboot_state = vm_create_with_xl_command s2 ∧
      s2.trace = (main_loop_poll reboot_state).state.trace ++
        Event.sleep ((main_loop_poll reboot_state).state.run_info.period * 2 % UINT_MOD) ::
        (if (main_loop_poll reboot_state).state.config.do_destroy = 1 then
          [Event.libxl_domain_destroy (main_loop_poll reboot_state).state.ctx.vmid] else []) ∧
      ((main_loop_poll reboot_state).state.run_info.period < 2147483648 →
        (main_loop_poll reboot_state).state.run_info.period * 2 % UINT_MOD =
          2 * (main_loop_poll reboot_state).state.run_info.period) ∧
      s2.config = (main_loop_poll reboot_state).state.config ∧
      s2.ctx = (main_loop_poll reboot_state).state.ctx ∧
      s2.run_info = (main_loop_poll reboot_state).state.run_info ∧
      (main_loop_body reboot_state).state.trace = s2.trace ++ Event.fork :: rest ∧
      (∀ e ∈ rest, e.is_destroy = false) ∧
      (main_loop_body reboot_state).state.run_info.running = reboot_state.run_info.running :=
  reboot_restart_sequence reboot_state (main_loop_poll reboot_state).state rfl rfl rfl rfl rfl

/-- C2, counterexample: with destroy disabled (`do_destroy = 0`) an iteration
that polls a power-off with `term_received = 0` issues no wait at all: the poll
is the only call of the iteration. -/
theorem poweroff_nodestroy_issues_no_wait :
    (main_loop_poll poweroff_nodestroy_state).returned = true ∧
    (main_loop_poll poweroff_nodestroy_state).state.run_info.term_received = 0 ∧
    (main_loop_poll poweroff_nodestroy_state).state.ctx.vminfo =
      { shutdown := true, shutdown_reason := .poweroff } ∧
    poweroff_nodestroy_state.config.do_destroy = 0 ∧
    poweroff_nodestroy_state.run_info.period = 5 ∧
    (main_loop_body poweroff_nodestroy_state).state.trace = [Event.libxl_domain_info 7] := by
  decide

/-- C2, amended: in an iteration whose poll succeeds with `term_received = 0`
and a status with `shutdown` set and a reason other than reboot, the wait of
`period * 2` seconds is issued only together with the destroy: when
`do_destroy = 1` the iteration first waits and then calls
`libxl_domain_destroy`; otherwise it issues neither that wait nor a destroy.
What follows is at most one wait of `period` and never a destroy. -/
theorem other_shutdown_wait_guarded_by_destroy (s s1 : State)
    (hpoll : main_loop_poll s = .ok s1)
    (hterm : s1.run_info.term_received = 0)
    (hshut : s1.ctx.vminfo.shutdown = true)
    (hreason : s1.ctx.vminfo.shutdown_reason ≠ .reboot) :
    ∃ rest,
      (main_loop_body s).state.trace = s1.trace ++
        (if s1.config.do_destroy = 1 then
          [Event.sleep (s1.run_info.period * 2 % UINT_MOD),
           Event.libxl_domain_destroy s1.ctx.vmid] else []) ++ rest ∧
      (rest = [] ∨ rest = [Event.sleep s1.run_info.period]) := by
  obtain ⟨_, _, hbody⟩ := main_loop_poll_ok_frame s s1 hpoll
  obtain ⟨s3, h3, htr, _⟩ := main_loop_act_other_shutdown s1 (by rw [hterm]; decide) hshut hreason
  refine ⟨_, by rw [hbody, h3]; exact htr, ?_⟩
  by_cases hi : s1.config.do_ignore_vm_shutdown = 0 <;> simp [hi]

/-- The hypotheses of `other_shutdown_wait_guarded_by_destroy` hold at `crash_ignore_state`. -/
theorem other_shutdown_wait_guarded_by_destroy_witness :
    ∃ rest,
      (main_loop_body crash_ignore_state).state.trace =
        (main_loop_poll crash_ignore_state).state.trace ++
        (if (main_loop_poll crash_ignore_state).state.config.do_destroy = 1 then
          [Event.sleep ((main_loop_poll crash_ignore_state).state.run_info.period * 2 % UINT_MOD),
           Event.libxl_domain_destroy (main_loop_poll crash_ignore_state).state.ctx.vmid]
          else []) ++ rest ∧
      (rest = [] ∨
        rest = [Event.sleep (main_loop_poll crash_ignore_state).state.run_info.period]) :=
  other_shutdown_wait_guarded_by_destroy crash_ignore_state
    (main_loop_poll crash_ignore_state).state rfl rfl rfl (by decide)

/-- C3: an iteration that handles a shutdown with a reason other than reboot
(poll succeeds, `term_received = 0`, `running = 1` on entry, no handler runs)
finishes as follows, for every `do_destroy` and every result of
`libxl_domain_destroy`.  With `do_ignore_vm_shutdown = 0` it returns with `running = 0` and
nothing is issued after the destroy step; with `do_ignore_vm_shutdown = 1` it
returns with `running` still 1 and its last call is a wait of `period`. -/
theorem other_shutdown_stop_or_continue (s s1 : State)
    (hpoll : main_loop_poll s = .ok s1)
    (hterm : s1.run_info.term_received = 0)
    (hshut : s1.ctx.vminfo.shutdown = true)
    (hreason : s1.ctx.vminfo.shutdown_reason ≠ .reboot)
    (hrun : s.run_info.running = 1) :
    ∃ s3, main_loop_body s = .ok s3 ∧
      (s1.config.do_ignore_vm_shutdown = 0 →
        s3.run_info.running = 0 ∧
        s3.trace = s1.trace ++
          (if s1.config.do_destroy = 1 then
            [Event.sleep (s1.run_info.period * 2 % UINT_MOD),
             Event.libxl_domain_destroy s1.ctx.vmid] else [])) ∧
      (s1.config.do_ignore_vm_shutdown = 1 →
        s3.run_info.running = 1 ∧
        s3.trace = s1.trace ++
          (if s1.config.do_destroy = 1 then
            [Event.sleep (s1.run_info.period * 2 % UINT_MOD),
             Event.libxl_domain_destroy s1.ctx.vmid] else []) ++
          [Event.sleep s1.run_info.period]) := by
  obtain ⟨hri, _, hbody⟩ := main_loop_poll_ok_frame s s1 hpoll
  obtain ⟨s3, h3, htr, hrn, _⟩ := main_loop_act_other_shutdown s1 (by rw [hterm]; decide) hshut hreason
  refine ⟨s3, by rw [hbody, h3], ?_, ?_⟩
  · intro hi
    rw [hrn, htr]
    simp [hi]
  · intro hi
    rw [hrn, htr, hri, hrun]
    simp [hi]

/-- The hypotheses of `other_shutdown_stop_or_continue` hold at `crash_ignore_state`. -/
theorem other_shutdown_stop_or_continue_witness :
    ∃ s3, main_loop_body crash_ignore_state = .ok s3 ∧
      ((main_loop_poll crash_ignore_state).state.config.do_ignore_vm_shutdown = 0 →
        s3.run_info.running = 0 ∧
        s3.trace = (main_loop_poll crash_ignore_state).state.trace ++
          (if (main_loop_poll crash_ignore_state).state.config.do_destroy = 1 then
            [Event.sleep
              ((main_loop_poll crash_ignore_state).state.run_info.period * 2 % UINT_MOD),
             Event.libxl_domain_destroy (main_loop_poll crash_ignore_state).state.ctx.vmid]
            else [])) ∧
      ((main_loop_poll crash_ignore_state).state.config.do_ignore_vm_shutdown = 1 →
        s3.run_info.running = 1 ∧
        s3.trace = (main_loop_poll crash_ignore_state).state.trace ++
          (if (main_loop_poll crash_ignore_state).state.config.do_destroy = 1 then
            [Event.sleep
              ((main_loop_poll crash_ignore_state).state.run_info.period * 2 % UINT_MOD),
             Event.libxl_domain_destroy (main_loop_poll crash_ignore_state).state.ctx.vmid]
            else []) ++
          [Event.sleep (main_loop_poll crash_ignore_state).state.run_info.period]) :=
  other_shutdown_stop_or_continue crash_ignore_state
    (main_loop_poll crash_ignore_state).state rfl rfl rfl (by decide) rfl

/-! ## The TERM request (C4) -/

/-- C4: in an iteration whose poll yields a status while `term_received = 1`,
whatever the status, the iteration runs `vm_shutdown` and nothing else: it
returns with `term_received = 0`, `running` and `period` unchanged, every call
issued after the poll is a shutdown primitive (so no destroy, no launch of the
creation tool, no wait), and the outcome does not depend on the status
polled (the classification by shutdown reason is not run). -/
theorem term_request_takes_priority (s s1 : State)
    (hpoll : main_loop_poll s = .ok s1)
    (hterm : s1.run_info.term_received = 1) :
    ∃ s2 s3 evs,
      vm_shutdown s1 = .ok s2 ∧
      main_loop_body s = .ok s3 ∧
      s3 = { s2 with run_info := { s2.run_info with term_received := 0 } } ∧
      s3.run_info.term_received = 0 ∧
      s3.run_info.running = s.run_info.running ∧
      s3.run_info.period = s.run_info.period ∧
      s3.trace = s1.trace ++ evs ∧
      (∀ e ∈ evs, e.is_shutdown_primitive = true ∧
        e.is_destroy = false ∧ e.is_launch = false ∧ e.is_sleep = false) ∧
      (∀ i : libxl_dominfo,
        main_loop_act { s1 with ctx := { s1.ctx with vminfo := i } } =
          .ok { s3 with ctx := { s3.ctx with vminfo := i } }) := by
  obtain ⟨hri, _, hbody⟩ := main_loop_poll_ok_frame s s1 hpoll
  obtain ⟨s2, h2, fri, _, _, ftr⟩ := vm_shutdown_frame s1
  have hact : main_loop_act s1 =
      .ok { s2 with run_info := { s2.run_info with term_received := 0 } } := by
    unfold main_loop_act
    simp [hterm, h2, andThen_ok]
  refine ⟨s2, _, _, h2, by rw [hbody, hact], rfl, rfl, ?_, ?_, ftr, ?_, ?_⟩
  · show s2.run_info.running = s.run_info.running
    rw [fri, hri]
  · show s2.run_info.period = s.run_info.period
    rw [fri, hri]
  · intro e he
    have hk := vm_shutdown_events_kind s1 e he
    exact ⟨hk, shutdown_primitive_kind e hk⟩
  · intro i
    have hv := vm_shutdown_vminfo s1 i s2 h2
    unfold main_loop_act
    simp [hterm, hv, andThen_ok]

/-- The hypotheses of `term_request_takes_priority` hold at `term_state`. -/
theorem term_request_takes_priority_witness :
    ∃ s2 s3 evs,
      vm_shutdown (main_loop_poll term_state).state = .ok s2 ∧
      main_loop_body term_state = .ok s3 ∧
      s3 = { s2 with run_info := { s2.run_info with term_received := 0 } } ∧
      s3.run_info.term_received = 0 ∧
      s3.run_info.running = term_state.run_info.running ∧
      s3.run_info.period = term_state.run_info.period ∧
      s3.trace = (main_loop_poll term_state).state.trace ++ evs ∧
      (∀ e ∈ evs, e.is_shutdown_primitive = true ∧
        e.is_destroy = false ∧ e.is_launch = false ∧ e.is_sleep = false) ∧
      (∀ i : libxl_dominfo,
        main_loop_act { (main_loop_poll term_state).state with
            ctx := { (main_loop_poll term_state).state.ctx with vminfo := i } } =
          .ok { s3 with ctx := { s3.ctx with vminfo := i } }) :=
  term_request_takes_priority term_state (main_loop_poll term_state).state rfl rfl

/-! ## Destroy disabled (C5) -/

/-- C5: with `do_destroy = 0` neither a bounded run of the monitoring loop, of
any length and from any state (any poll results, statuses, other policy flags,
`term_received`, adapter results and signals), nor a single iteration issues
`libxl_domain_destroy`: the calls added to the trace contain no destroy. -/
theorem destroy_disabled_never_destroys (fuel : Nat) (s : State)
    (hd : s.config.do_destroy = 0) :
    (∃ evs, (main_loop fuel s).state.trace = s.trace ++ evs ∧
      ∀ e ∈ evs, ∀ v, e ≠ Event.libxl_domain_destroy v) ∧
    (∃ evs, (main_loop_body s).state.trace = s.trace ++ evs ∧
      ∀ e ∈ evs, ∀ v, e ≠ Event.libxl_domain_destroy v) := by
  have hd1 : s.config.do_destroy ≠ 1 := by rw [hd]; decide
  obtain ⟨_, evs, ht, hn⟩ := main_loop_no_destroy fuel s hd1
  obtain ⟨_, evs2, ht2, hn2⟩ := main_loop_body_no_destroy s hd1
  refine ⟨⟨evs, ht, ?_⟩, ⟨evs2, ht2, ?_⟩⟩
  · intro e he v hv
    have := hn e he
    rw [hv] at this
    exact Bool.noConfusion this
  · intro e he v hv
    have := hn2 e he
    rw [hv] at this
    exact Bool.noConfusion this

/-- The hypotheses of `destroy_disabled_never_destroys` hold at `poweroff_nodestroy_state` for three loop-top checks. -/
theorem destroy_disabled_never_destroys_witness :
    (∃ evs, (main_loop 3 poweroff_nodestroy_state).state.trace =
        poweroff_nodestroy_state.trace ++ evs ∧
      ∀ e ∈ evs, ∀ v, e ≠ Event.libxl_domain_destroy v) ∧
    (∃ evs, (main_loop_body poweroff_nodestroy_state).state.trace =
        poweroff_nodestroy_state.trace ++ evs ∧
      ∀ e ∈ evs, ∀ v, e ≠ Event.libxl_domain_destroy v) :=
  destroy_disabled_never_destroys 3 poweroff_nodestroy_state rfl

/-! ## Stale identity (C6, C7, C8) -/

/-- C6: when the first status query of an iteration fails while
`do_recover_stale_vm_id = 0`, the process exits with code 4; the only calls of
the iteration are that query and the release calls of `program_shutdown`: no
lookup by name, no second query, no shutdown primitive, no destroy, no launch
and no wait, whatever `term_received` and the other flags are. -/
theorem stale_without_recovery_exits_4 (s : State)
    (h0 : s.env.domain_info 0 = none) (hr : s.config.do_recover_stale_vm_id = 0) :
    ∃ s1, main_loop_body s = .exited 4 s1 ∧
      s1.trace = s.trace ++ Event.libxl_domain_info s.ctx.vmid :: release_events s.ctx ∧
      (∀ e ∈ release_events s.ctx, e = Event.libxl_ctx_free ∨ e = Event.xtl_logger_destroy) ∧
      s1.run_info = s.run_info := by
  have h : main_loop_body s = (main_loop_poll s).andThen main_loop_act := rfl
  rw [main_loop_poll_stale_fatal s h0 hr, andThen_exited] at h
  exact ⟨_, h, rfl, fun e he => release_events_kind _ e he, rfl⟩

/-- The hypotheses of `stale_without_recovery_exits_4` hold at `stale_state`. -/
theorem stale_without_recovery_exits_4_witness :
    ∃ s1, main_loop_body stale_state = .exited 4 s1 ∧
      s1.trace = stale_state.trace ++
        Event.libxl_domain_info stale_state.ctx.vmid :: release_events stale_state.ctx ∧
      (∀ e ∈ release_events stale_state.ctx,
        e = Event.libxl_ctx_free ∨ e = Event.xtl_logger_destroy) ∧
      s1.run_info = stale_state.run_info :=
  stale_without_recovery_exits_4 stale_state rfl rfl

/-- C7, counterexample: with recovery enabled, a failed first status query and
a failed lookup by name, the process exits with code 3, not 4. -/
theorem failed_lookup_in_recovery_exits_3 :
    stale_lookup_fails_state.config.do_recover_stale_vm_id = 1 ∧
    stale_lookup_fails_state.env.domain_info 0 = none ∧
    stale_lookup_fails_state.env.name_to_domid 0 = none ∧
    (main_loop_body stale_lookup_fails_state).exit_code = some 3 := by
  decide

/-- C7, amended: when the first status query of an iteration fails while
`do_recover_stale_vm_id = 1` and the recovery attempt fails, the process
terminates: with exit code 3 when the lookup by name fails (the `exit(3)` of
`vm_name_to_vmid`), and with exit code 4 when the lookup succeeds and the
status query issued after it fails again. -/
theorem failed_recovery_exit_codes (s : State)
    (h0 : s.env.domain_info 0 = none) (hr : s.config.do_recover_stale_vm_id = 1) :
    (s.env.name_to_domid 0 = none → (main_loop_body s).exit_code = some 3) ∧
    (∀ d, s.env.name_to_domid 0 = some d → s.env.domain_info 1 = none →
      (main_loop_body s).exit_code = some 4) := by
  have hr0 : s.config.do_recover_stale_vm_id ≠ 0 := by rw [hr]; decide
  constructor
  · intro h1
    unfold main_loop_body
    rw [main_loop_poll_lookup_fails s h0 hr0 h1]
    rfl
  · intro d h1 h2
    unfold main_loop_body
    rw [main_loop_poll_second_fails s d h0 hr0 h1 h2]
    rfl

/-- The hypotheses of `failed_recovery_exit_codes` hold at `stale_second_poll_fails_state`. -/
theorem failed_recovery_exit_codes_witness :
    (stale_second_poll_fails_state.env.name_to_domid 0 = none →
      (main_loop_body stale_second_poll_fails_state).exit_code = some 3) ∧
    (∀ d, stale_second_poll_fails_state.env.name_to_domid 0 = some d →
      stale_second_poll_fails_state.env.domain_info 1 = none →
      (main_loop_body stale_second_poll_fails_state).exit_code = some 4) :=
  failed_recovery_exit_codes stale_second_poll_fails_state rfl rfl

/-- C8: when the first status query of an iteration fails while
`do_recover_stale_vm_id = 1`, the poll step issues, after that query, exactly
one lookup by name and at most one further status query, whatever the results.
When the lookup finds `d` and the second query yields `j`, the iteration is,
up to the calls of the poll step, the same as an iteration started with the
id `d` whose first query yields `j`: there is one outcome `o` (kind of ending,
final `ctx`, `config`, `run_info`, remaining results, calls issued after the
poll) that both iterations produce, each after its own poll calls.  In
particular, when `j.shutdown` is false and `term_received = 0`, the iteration
returns after one wait of `period`, with `run_info` unchanged. -/
theorem stale_recovery_retries_once (s : State)
    (h0 : s.env.domain_info 0 = none) (hr : s.config.do_recover_stale_vm_id = 1) :
    (∃ evs, (main_loop_poll s).state.trace =
        s.trace ++ Event.libxl_domain_info s.ctx.vmid :: evs ∧
      evs.countP Event.is_name_to_domid = 1 ∧ evs.countP Event.is_domain_info ≤ 1) ∧
    (∀ d j, s.env.name_to_domid 0 = some d → s.env.domain_info 1 = some j →
      (∃ o : Outcome,
        main_loop_body s = o.prepend (s.trace ++
          [Event.libxl_domain_info s.ctx.vmid, Event.libxl_name_to_domid s.config.vm_name,
           Event.libxl_domain_info d]) ∧
        ∀ (tr : List Event) (i0 : libxl_dominfo),
          main_loop_body
            { s with
              ctx := { s.ctx with vmid := d, vminfo := i0 }
              env := { s.env with domain_info := next s.env.domain_info
                                  name_to_domid := next s.env.name_to_domid }
              trace := tr } = o.prepend (tr ++ [Event.libxl_domain_info d])) ∧
      (j.shutdown = false → s.run_info.term_received = 0 →
        ∃ s3, main_loop_body s = .ok s3 ∧
          s3.trace = s.trace ++
            [Event.libxl_domain_info s.ctx.vmid, Event.libxl_name_to_domid s.config.vm_name,
             Event.libxl_domain_info d, Event.sleep s.run_info.period] ∧
          s3.run_info = s.run_info)) := by
  have hr0 : s.config.do_recover_stale_vm_id ≠ 0 := by rw [hr]; decide
  constructor
  · cases h1 : s.env.name_to_domid 0 with
    | none =>
      rw [main_loop_poll_lookup_fails s h0 hr0 h1]
      refine ⟨_, rfl, ?_, ?_⟩ <;>
        simp [List.countP_cons, Event.is_name_to_domid, Event.is_domain_info,
          release_events_counts]
    | some d =>
      cases h2 : s.env.domain_info 1 with
      | none =>
        rw [main_loop_poll_second_fails s d h0 hr0 h1 h2]
        refine ⟨_, rfl, ?_, ?_⟩ <;>
          simp [List.countP_cons, Event.is_name_to_domid, Event.is_domain_info,
            release_events_counts]
      | some j =>
        rw [main_loop_poll_recovered s d j h0 hr0 h1 h2]
        refine ⟨[Event.libxl_name_to_domid s.config.vm_name, Event.libxl_domain_info d],
          rfl, ?_, ?_⟩ <;>
          simp [List.countP_cons, Event.is_name_to_domid, Event.is_domain_info]
  · intro d j h1 h2
    have hp := main_loop_poll_recovered s d j h0 hr0 h1 h2
    constructor
    · refine ⟨main_loop_act
          { s with
            ctx := { s.ctx with vmid := d, vminfo := j }
            env := { s.env with domain_info := next (next s.env.domain_info)
                                name_to_domid := next s.env.name_to_domid }
            trace := [] }, ?_, ?_⟩
      · rw [← main_loop_act_prepend]
        unfold main_loop_body
        rw [hp, andThen_ok]
        simp [State.prepend]
      · intro tr i0
        rw [← main_loop_act_prepend]
        unfold main_loop_body
        rw [main_loop_poll_direct _ j (by simpa [next] using h2), andThen_ok]
        simp [State.prepend]
    · intro hj ht
      unfold main_loop_body
      rw [hp, andThen_ok]
      unfold main_loop_act
      simp [ht, hj, sleep, State.emit]

/-- The hypotheses of `stale_recovery_retries_once` hold at `stale_recovered_state`. -/
theorem stale_recovery_retries_once_witness :
    (∃ evs, (main_loop_poll stale_recovered_state).state.trace =
        stale_recovered_state.trace ++
          Event.libxl_domain_info stale_recovered_state.ctx.vmid :: evs ∧
      evs.countP Event.is_name_to_domid = 1 ∧ evs.countP Event.is_domain_info ≤ 1) ∧
    (∀ d j, stale_recovered_state.env.name_to_domid 0 = some d →
      stale_recovered_state.env.domain_info 1 = some j →
      (∃ o : Outcome,
        main_loop_body stale_recovered_state = o.prepend (stale_recovered_state.trace ++
          [Event.libxl_domain_info stale_recovered_state.ctx.vmid,
           Event.libxl_name_to_domid stale_recovered_state.config.vm_name,
           Event.libxl_domain_info d]) ∧
        ∀ (tr : List Event) (i0 : libxl_dominfo),
          main_loop_body
            { stale_recovered_state with
              ctx := { stale_recovered_state.ctx with vmid := d, vminfo := i0 }
              env := { stale_recovered_state.env with
                        domain_info := next stale_recovered_state.env.domain_info
                        name_to_domid := next stale_recovered_state.env.name_to_domid }
              trace := tr } = o.prepend (tr ++ [Event.libxl_domain_info d])) ∧
      (j.shutdown = false → stale_recovered_state.run_info.term_received = 0 →
        ∃ s3, main_loop_body stale_recovered_state = .ok s3 ∧
          s3.trace = stale_recovered_state.trace ++
            [Event.libxl_domain_info stale_recovered_state.ctx.vmid,
             Event.libxl_name_to_domid stale_recovered_state.config.vm_name,
             Event.libxl_domain_info d, Event.sleep stale_recovered_state.run_info.period] ∧
          s3.run_info = stale_recovered_state.run_info)) :=
  stale_recovery_retries_once stale_recovered_state rfl rfl

/-! ## Ways out of the loop (C9) -/

/-- C9, counterexample: under the default policy, an iteration that polls a
reboot, launches the creation tool (`fork` returns 1234) and then fails to
look the DomU up by name ends the process with exit code 3, although its poll
step produced a valid status. -/
theorem recreate_lookup_failure_exits_3 :
    (main_loop_poll reboot_lookup_fails_state).returned = true ∧
    (main_loop_body reboot_lookup_fails_state).returned = false ∧
    (main_loop_body reboot_lookup_fails_state).exit_code = some 3 ∧
    (main_loop_body reboot_lookup_fails_state).state.trace =
      [Event.libxl_domain_info 7, Event.sleep 10, Event.libxl_domain_destroy 7, Event.fork,
       Event.sleep 10, Event.libxl_name_to_domid (some "domu"), Event.libxl_ctx_free,
       Event.xtl_logger_destroy] := by
  decide

/-- C9, amended: an iteration whose poll step produced a valid status returns
to the loop-top check for every status, policy, `term_received` and adapter
result, except inside `vm_create_with_xl_command` (reached with
`term_received` different from 1, shutdown set, reason reboot and
`do_restart = 1`).  There it returns when `fork` fails and when the lookup
after the launch succeeds; it exits with code 3 when `fork` returned a
positive pid and the lookup after the launch fails; and in the forked child
(`fork` returned 0) a successful `execlp` replaces the process image, a failed
one returns.  Hence a bounded run of the loop that is over ended at a loop-top
check that found `running` different from 1, in an exit with code 3 or 4, or
in the replaced image of the forked child. -/
theorem valid_poll_iteration_outcome (s s1 : State)
    (hpoll : main_loop_poll s = .ok s1) :
    (¬ (s1.run_info.term_received ≠ 1 ∧ s1.ctx.vminfo.shutdown = true ∧
        s1.ctx.vminfo.shutdown_reason = .reboot ∧ s1.config.do_restart = 1) →
      ∃ s3, main_loop_body s = .ok s3) ∧
    ((s1.run_info.term_received ≠ 1 ∧ s1.ctx.vminfo.shutdown = true ∧
        s1.ctx.vminfo.shutdown_reason = .reboot ∧ s1.config.do_restart = 1) →
      (s1.env.fork 0 < 0 → ∃ s3, main_loop_body s = .ok s3) ∧
      (s1.env.fork 0 = 0 → s1.env.execlp 0 = false → ∃ s3, main_loop_body s = .ok s3) ∧
      (s1.env.fork 0 = 0 → s1.env.execlp 0 = true → ∃ s3, main_loop_body s = .execed s3) ∧
      (0 < s1.env.fork 0 → ∀ d, s1.env.name_to_domid 0 = some d →
        ∃ s3, main_loop_body s = .ok s3) ∧
      (0 < s1.env.fork 0 → s1.env.name_to_domid 0 = none →
        ∃ s3, main_loop_body s = .exited 3 s3)) ∧
    (∀ (fuel : Nat) (t : State) (o : Outcome), main_loop fuel t = .finished o →
      (∃ s3, o = .ok s3 ∧ s3.run_info.running ≠ 1) ∨ o.exit_code = some 3 ∨
        o.exit_code = some 4 ∨ ∃ s3, o = .execed s3) := by
  have hb : main_loop_body s = main_loop_act s1 := (main_loop_poll_ok_frame s s1 hpoll).2.2
  refine ⟨?_, ?_, main_loop_finished_outcome⟩
  · intro hR
    rw [hb]
    exact main_loop_act_returns s1 hR
  · intro hR
    obtain ⟨s2, h2, _, _, _, _, ef, ex, en⟩ :=
      main_loop_act_reboot_restart s1 hR.1 hR.2.1 hR.2.2.1 hR.2.2.2
    rw [hb, h2, ← ef, ← ex, ← en]
    exact vm_create_with_xl_command_outcome s2

/-- The hypotheses of `valid_poll_iteration_outcome` hold at `reboot_lookup_fails_state`. -/
theorem valid_poll_iteration_outcome_witness :
    (¬ ((main_loop_poll reboot_lookup_fails_state).state.run_info.term_received ≠ 1 ∧
        (main_loop_poll reboot_lookup_fails_state).state.ctx.vminfo.shutdown = true ∧
        (main_loop_poll reboot_lookup_fails_state).state.ctx.vminfo.shutdown_reason = .reboot ∧
        (main_loop_poll reboot_lookup_fails_state).state.config.do_restart = 1) →
      ∃ s3, main_loop_body reboot_lookup_fails_state = .ok s3) ∧
    (((main_loop_poll reboot_lookup_fails_state).state.run_info.term_received ≠ 1 ∧
        (main_loop_poll reboot_lookup_fails_state).state.ctx.vminfo.shutdown = true ∧
        (main_loop_poll reboot_lookup_fails_state).state.ctx.vminfo.shutdown_reason = .reboot ∧
        (main_loop_poll reboot_lookup_fails_state).state.config.do_restart = 1) →
      ((main_loop_poll reboot_lookup_fails_state).state.env.fork 0 < 0 →
        ∃ s3, main_loop_body reboot_lookup_fails_state = .ok s3) ∧
      ((main_loop_poll reboot_lookup_fails_state).state.env.fork 0 = 0 →
        (main_loop_poll reboot_lookup_fails_state).state.env.execlp 0 = false →
        ∃ s3, main_loop_body reboot_lookup_fails_state = .ok s3) ∧
      ((main_loop_poll reboot_lookup_fails_state).state.env.fork 0 = 0 →
        (main_loop_poll reboot_lookup_fails_state).state.env.execlp 0 = true →
        ∃ s3, main_loop_body reboot_lookup_fails_state = .execed s3) ∧
      (0 < (main_loop_poll reboot_lookup_fails_state).state.env.fork 0 →
        ∀ d, (main_loop_poll reboot_lookup_fails_state).state.env.name_to_domid 0 = some d →
        ∃ s3, main_loop_body reboot_lookup_fails_state = .ok s3) ∧
      (0 < (main_loop_poll reboot_lookup_fails_state).state.env.fork 0 →
        (main_loop_poll reboot_lookup_fails_state).state.env.name_to_domid 0 = none →
        ∃ s3, main_loop_body reboot_lookup_fails_state = .exited 3 s3)) ∧
    (∀ (fuel : Nat) (t : State) (o : Outcome), main_loop fuel t = .finished o →
      (∃ s3, o = .ok s3 ∧ s3.run_info.running ≠ 1) ∨ o.exit_code = some 3 ∨
        o.exit_code = some 4 ∨ ∃ s3, o = .execed s3) :=
  valid_poll_iteration_outcome reboot_lookup_fails_state
    (main_loop_poll reboot_lookup_fails_state).state rfl

/-! ## Graceful shutdown (C10) -/

/-- C10: with `do_shutdown = 1`, `vm_shutdown` first requests the cooperative
shutdown (`libxl_domain_shutdown`), sends the power trigger
(`libxl_send_trigger`) exactly when that request returned nonzero, and for
every pair of adapter results returns to its caller, with `run_info` (so
`running`), `config` and `ctx` unchanged and no other call issued (no destroy,
no launch of the creation tool). -/
theorem vm_shutdown_two_tier (s : State) (hs : s.config.do_shutdown = 1) :
    ∃ s2, vm_shutdown s = .ok s2 ∧
      s2.trace = s.trace ++ Event.libxl_domain_shutdown s.ctx.vmid ::
        (if s.env.domain_shutdown 0 ≠ 0 then [Event.libxl_send_trigger s.ctx.vmid] else []) ∧
      s2.run_info = s.run_info ∧ s2.config = s.config ∧ s2.ctx = s.ctx := by
  obtain ⟨s2, h2, hri, hc, hx, ht⟩ := vm_shutdown_frame s
  refine ⟨s2, h2, ?_, hri, hc, hx⟩
  rw [ht, if_pos hs]

/-- The hypotheses of `vm_shutdown_two_tier` hold at `shutdown_refused_state`. -/
theorem vm_shutdown_two_tier_witness :
    ∃ s2, vm_shutdown shutdown_refused_state = .ok s2 ∧
      s2.trace = shutdown_refused_state.trace ++
        Event.libxl_domain_shutdown shutdown_refused_state.ctx.vmid ::
        (if shutdown_refused_state.env.domain_shutdown 0 ≠ 0 then
          [Event.libxl_send_trigger shutdown_refused_state.ctx.vmid] else []) ∧
      s2.run_info = shutdown_refused_state.run_info ∧
      s2.config = shutdown_refused_state.config ∧
      s2.ctx = shutdown_refused_state.ctx :=
  vm_shutdown_two_tier shutdown_refused_state rfl

/-! ## Who writes `running` -/

/-- The poll step never writes `run_info`, however it ends. -/
theorem main_loop_poll_run_info (s : State) :
    (main_loop_poll s).state.run_info = s.run_info := by
  cases h0 : s.env.domain_info 0 with
  | some i => rw [main_loop_poll_direct s i h0]; rfl
  | none =>
    by_cases hr : s.config.do_recover_stale_vm_id = 0
    · rw [main_loop_poll_stale_fatal s h0 hr]; rfl
    · cases h1 : s.env.name_to_domid 0 with
      | none => rw [main_loop_poll_lookup_fails s h0 hr h1]; rfl
      | some d =>
        cases h2 : s.env.domain_info 1 with
        | none => rw [main_loop_poll_second_fails s d h0 hr h1 h2]; rfl
        | some j => rw [main_loop_poll_recovered s d j h0 hr h1 h2]; rfl

/-- The rest of the loop body clears `running` in the branch for a shutdown
other than a reboot with `do_ignore_vm_shutdown = 0`, and nowhere else. -/
theorem main_loop_act_running (s : State) :
    (main_loop_act s).state.run_info.running =
      (if s.run_info.term_received ≠ 1 ∧ s.ctx.vminfo.shutdown = true ∧
          s.ctx.vminfo.shutdown_reason ≠ .reboot ∧ s.config.do_ignore_vm_shutdown = 0
        then 0 else s.run_info.running) := by
  by_cases ht : s.run_info.term_received = 1
  · obtain ⟨s2, h2, fri, _⟩ := vm_shutdown_frame s
    have hc : ¬ (s.run_info.term_received ≠ 1 ∧ s.ctx.vminfo.shutdown = true ∧
        s.ctx.vminfo.shutdown_reason ≠ .reboot ∧ s.config.do_ignore_vm_shutdown = 0) :=
      fun h => h.1 ht
    rw [if_neg hc]
    unfold main_loop_act
    rw [if_pos ht, h2, andThen_ok]
    show s2.run_info.running = s.run_info.running
    rw [fri]
  · by_cases hs : s.ctx.vminfo.shutdown = true
    · by_cases hb : s.ctx.vminfo.shutdown_reason = .reboot
      · have hc : ¬ (s.run_info.term_received ≠ 1 ∧ s.ctx.vminfo.shutdown = true ∧
            s.ctx.vminfo.shutdown_reason ≠ .reboot ∧ s.config.do_ignore_vm_shutdown = 0) :=
          fun h => h.2.2.1 hb
        rw [if_neg hc]
        by_cases hre : s.config.do_restart = 1
        · obtain ⟨s2, h2, _, _, _, hr, _⟩ := main_loop_act_reboot_restart s ht hs hb hre
          obtain ⟨fri, _⟩ := vm_create_with_xl_command_frame s2
          rw [h2, fri, hr]
        · unfold main_loop_act
          rw [if_neg ht, if_pos hs, if_pos hb, if_neg hre]
          rfl
      · obtain ⟨s3, h3, _, hrn, _⟩ := main_loop_act_other_shutdown s ht hs hb
        rw [h3]
        show s3.run_info.running = _
        rw [hrn]
        by_cases hi : s.config.do_ignore_vm_shutdown = 0
        · rw [if_pos hi, if_pos ⟨ht, hs, hb, hi⟩]
        · have hc : ¬ (s.run_info.term_received ≠ 1 ∧ s.ctx.vminfo.shutdown = true ∧
              s.ctx.vminfo.shutdown_reason ≠ .reboot ∧ s.config.do_ignore_vm_shutdown = 0) :=
            fun h => hi h.2.2.2
          rw [if_neg hi, if_neg hc]
    · have hc : ¬ (s.run_info.term_received ≠ 1 ∧ s.ctx.vminfo.shutdown = true ∧
          s.ctx.vminfo.shutdown_reason ≠ .reboot ∧ s.config.do_ignore_vm_shutdown = 0) :=
        fun h => hs h.2.1
      rw [if_neg hc]
      unfold main_loop_act
      rw [if_neg ht, if_neg hs]
      rfl

/-- One iteration keeps `running` or clears it, and it clears it only in the
branch for a shutdown other than a reboot with `do_ignore_vm_shutdown = 0`. -/
theorem main_loop_body_running (s : State) :
    ((main_loop_body s).state.run_info.running = s.run_info.running ∨
      (main_loop_body s).state.run_info.running = 0) ∧
    ((main_loop_body s).state.run_info.running ≠ s.run_info.running →
      ∃ s1, main_loop_poll s = .ok s1 ∧ s1.run_info.term_received ≠ 1 ∧
        s1.ctx.vminfo.shutdown = true ∧ s1.ctx.vminfo.shutdown_reason ≠ .reboot ∧
        s1.config.do_ignore_vm_shutdown = 0) := by
  have hp := main_loop_poll_run_info s
  cases hm : main_loop_poll s with
  | ok s1 =>
    rw [hm] at hp
    have hri : s1.run_info = s.run_info := hp
    have hb : main_loop_body s = main_loop_act s1 := (main_loop_poll_ok_frame s s1 hm).2.2
    have ha := main_loop_act_running s1
    rw [hb, ha, ← hri]
    by_cases hc : s1.run_info.term_received ≠ 1 ∧ s1.ctx.vminfo.shutdown = true ∧
        s1.ctx.vminfo.shutdown_reason ≠ .reboot ∧ s1.config.do_ignore_vm_shutdown = 0
    · rw [if_pos hc]
      exact ⟨Or.inr rfl, fun _ => ⟨s1, rfl, hc⟩⟩
    · rw [if_neg hc]
      exact ⟨Or.inl rfl, fun h => absurd rfl h⟩
  | exited c s1 =>
    rw [hm] at hp
    have hb : main_loop_body s = .exited c s1 := by
      unfold main_loop_body; rw [hm, andThen_exited]
    rw [hb]
    have hri : s1.run_info = s.run_info := hp
    show (s1.run_info.running = s.run_info.running ∨ s1.run_info.running = 0) ∧
      (s1.run_info.running ≠ s.run_info.running → _)
    rw [hri]
    exact ⟨Or.inl rfl, fun h => absurd rfl h⟩
  | execed s1 =>
    rw [hm] at hp
    have hb : main_loop_body s = .execed s1 := by
      unfold main_loop_body; rw [hm, andThen_execed]
    rw [hb]
    have hri : s1.run_info = s.run_info := hp
    show (s1.run_info.running = s.run_info.running ∨ s1.run_info.running = 0) ∧
      (s1.run_info.running ≠ s.run_info.running → _)
    rw [hri]
    exact ⟨Or.inl rfl, fun h => absurd rfl h⟩

/-- A handler keeps `running` or clears it. -/
theorem signal_handler_running (s : State) (sig : Signal) :
    ∃ s1, signal_handler s sig = .ok s1 ∧
      (s1.run_info.running = s.run_info.running ∨ s1.run_info.running = 0) := by
  cases sig with
  | SIGINT => exact ⟨_, rfl, Or.inr rfl⟩
  | SIGTERM =>
    unfold signal_handler
    by_cases ht : s.config.do_term = 1
    · rw [if_pos ht]; exact ⟨_, rfl, Or.inl rfl⟩
    · rw [if_neg ht]; exact ⟨_, rfl, Or.inr rfl⟩

/-- Delivering signals keeps `running` or clears it. -/
theorem deliver_running (l : List Signal) (s : State) :
    ∃ s1, deliver l s = .ok s1 ∧
      (s1.run_info.running = s.run_info.running ∨ s1.run_info.running = 0) := by
  induction l generalizing s with
  | nil => exact ⟨s, rfl, Or.inl rfl⟩
  | cons sig rest ih =>
    obtain ⟨s0, h0, r0⟩ := signal_handler_running s sig
    obtain ⟨s1, h1, r1⟩ := ih s0
    refine ⟨s1, ?_, ?_⟩
    · show (signal_handler s sig).andThen (deliver rest) = .ok s1
      rw [h0, andThen_ok, h1]
    · rcases r1 with r1 | r1
      · rcases r0 with r0 | r0
        · exact Or.inl (r1.trans r0)
        · exact Or.inr (r1.trans r0)
      · exact Or.inr r1

/-- A bounded run of the loop keeps `running` or clears it. -/
theorem main_loop_running (fuel : Nat) (s : State) :
    (main_loop fuel s).state.run_info.running = s.run_info.running ∨
      (main_loop fuel s).state.run_info.running = 0 := by
  induction fuel generalizing s with
  | zero => exact Or.inl rfl
  | succ n ih =>
    have hd : ∃ s1, deliver_pending s = .ok s1 ∧
        (s1.run_info.running = s.run_info.running ∨ s1.run_info.running = 0) := by
      unfold deliver_pending
      exact deliver_running _ _
    obtain ⟨s1, h1, r1⟩ := hd
    have key : ∀ t : State, (t.run_info.running = s1.run_info.running ∨
        t.run_info.running = 0) →
        (t.run_info.running = s.run_info.running ∨ t.run_info.running = 0) := by
      intro t ht
      rcases ht with ht | ht
      · rcases r1 with r1 | r1
        · exact Or.inl (ht.trans r1)
        · exact Or.inr (ht.trans r1)
      · exact Or.inr ht
    unfold main_loop
    rw [h1]
    by_cases hrun : s1.run_info.running = 1
    · simp only [hrun, if_true]
      have hb := (main_loop_body_running s1).1
      cases hm : main_loop_body s1 with
      | ok s2 =>
        rw [hm] at hb
        have hb2 : s2.run_info.running = s1.run_info.running ∨ s2.run_info.running = 0 := hb
        apply key
        rcases ih s2 with h | h
        · rcases hb2 with g | g
          · exact Or.inl (h.trans g)
          · exact Or.inr (h.trans g)
        · exact Or.inr h
      | exited c s2 =>
        rw [hm] at hb
        exact key s2 hb
      | execed s2 =>
        rw [hm] at hb
        exact key s2 hb
    · simp only [hrun, if_false]
      exact key s1 (Or.inl rfl)

/-! ## Reboot with restart disabled (C12) -/

/-- C12: in an iteration whose poll succeeds with `term_received = 0`, a status
with `shutdown` set and reason reboot, and `do_restart = 0`, the only call
issued after the poll is one wait of `period` seconds: no destroy, whatever
`do_destroy` is, no launch of the creation tool, no shutdown primitive; the
iteration returns and `run_info` (so `running`), `ctx`, `config` and the
results still to come are left as the poll left them. -/
theorem reboot_without_restart_only_waits (s s1 : State)
    (hpoll : main_loop_poll s = .ok s1)
    (hterm : s1.run_info.term_received = 0)
    (hshut : s1.ctx.vminfo.shutdown = true)
    (hreason : s1.ctx.vminfo.shutdown_reason = .reboot)
    (hrestart : s1.config.do_restart = 0) :
    ∃ s3, main_loop_body s = .ok s3 ∧
      s3.trace = s1.trace ++ [Event.sleep s1.run_info.period] ∧
      s3.run_info = s.run_info ∧ s3.ctx = s1.ctx ∧ s3.config = s1.config ∧
      s3.env.domain_destroy = s1.env.domain_destroy ∧ s3.env.fork = s1.env.fork ∧
      s3.env.domain_shutdown = s1.env.domain_shutdown ∧
      s3.env.send_trigger = s1.env.send_trigger := by
  obtain ⟨hri, _, hbody⟩ := main_loop_poll_ok_frame s s1 hpoll
  have ht : ¬ s1.run_info.term_received = 1 := by rw [hterm]; decide
  have hre : ¬ s1.config.do_restart = 1 := by rw [hrestart]; decide
  have hact : main_loop_act s1 = .ok (sleep s1.run_info.period s1) := by
    unfold main_loop_act
    rw [if_neg ht, if_pos hshut, if_pos hreason, if_neg hre]
  exact ⟨sleep s1.run_info.period s1, by rw [hbody, hact], rfl, hri, rfl, rfl, rfl, rfl,
    rfl, rfl⟩

/-- The hypotheses of `reboot_without_restart_only_waits` hold at
`reboot_norestart_state`. -/
theorem reboot_without_restart_only_waits_witness :
    ∃ s3, main_loop_body reboot_norestart_state = .ok s3 ∧
      s3.trace = (main_loop_poll reboot_norestart_state).state.trace ++
        [Event.sleep (main_loop_poll reboot_norestart_state).state.run_info.period] ∧
      s3.run_info = reboot_norestart_state.run_info ∧
      s3.ctx = (main_loop_poll reboot_norestart_state).state.ctx ∧
      s3.config = (main_loop_poll reboot_norestart_state).state.config ∧
      s3.env.domain_destroy = (main_loop_poll reboot_norestart_state).state.env.domain_destroy ∧
      s3.env.fork = (main_loop_poll reboot_norestart_state).state.env.fork ∧
      s3.env.domain_shutdown =
        (main_loop_poll reboot_norestart_state).state.env.domain_shutdown ∧
      s3.env.send_trigger = (main_loop_poll reboot_norestart_state).state.env.send_trigger :=
  reboot_without_restart_only_waits reboot_norestart_state
    (main_loop_poll reboot_norestart_state).state rfl rfl rfl rfl rfl

/-! ## Signal handlers (C13) -/

/-- C13: `signal_stop_running` returns with `running = 0` and every other part
of the state (`term_received`, `period`, `ctx`, `config`, trace) unchanged;
`signal_shutdown` returns with `term_received = 1` and every other part
unchanged.  The handler installed for INT is `signal_stop_running`; the one
installed for TERM is `signal_shutdown` when `do_term = 1`, and when
`do_term = 0` it is `signal_stop_running`, so that TERM and INT have the same
effect on every state. -/
theorem signal_handlers_set_one_flag (s : State) (signum : Int) :
    signal_stop_running signum s =
      .ok { s with run_info := { running := 0, term_received := s.run_info.term_received,
                                 period := s.run_info.period } } ∧
    signal_shutdown signum s =
      .ok { s with run_info := { running := s.run_info.running, term_received := 1,
                                 period := s.run_info.period } } ∧
    signal_handler s .SIGINT = signal_stop_running 2 s ∧
    (s.config.do_term = 1 → signal_handler s .SIGTERM = signal_shutdown 15 s) ∧
    (s.config.do_term = 0 →
      signal_handler s .SIGTERM = signal_stop_running 15 s ∧
      signal_handler s .SIGTERM = signal_handler s .SIGINT) := by
  refine ⟨rfl, rfl, rfl, ?_, ?_⟩
  · intro h
    unfold signal_handler
    rw [if_pos h]
  · intro h
    have h1 : ¬ s.config.do_term = 1 := by rw [h]; decide
    unfold signal_handler
    rw [if_neg h1]
    exact ⟨rfl, rfl⟩

/-- The statement of `signal_handlers_set_one_flag` at `noterm_state`, where
`do_term = 0`, and at `term_state`, where `do_term = 1`. -/
theorem signal_handlers_set_one_flag_witness :
    (signal_handler noterm_state .SIGTERM = signal_stop_running 15 noterm_state ∧
      signal_handler noterm_state .SIGTERM = signal_handler noterm_state .SIGINT) ∧
    signal_handler term_state .SIGTERM = signal_shutdown 15 term_state :=
  ⟨(signal_handlers_set_one_flag noterm_state 15).2.2.2.2 rfl,
   (signal_handlers_set_one_flag term_state 15).2.2.2.1 rfl⟩

/-! ## Recreate (C16) -/

/-- C16: in `vm_create_with_xl_command`, when `fork` returns a positive pid
(the parent after a successful launch), the calls that follow are one wait of
`period * 2` seconds (the `unsigned int` product) and then one
`libxl_name_to_domid`, in that order, followed only by the release calls of
`program_shutdown` when that lookup fails; when `fork` returns a negative
value the function returns after `fork` alone, with `ctx` (the stored id),
`run_info` and `config` unchanged. -/
theorem recreate_waits_then_looks_up (s : State) :
    (0 < s.env.fork 0 →
      ∃ rest, (vm_create_with_xl_command s).state.trace = s.trace ++
          [Event.fork, Event.sleep (s.run_info.period * 2 % UINT_MOD),
           Event.libxl_name_to_domid s.config.vm_name] ++ rest ∧
        (∀ e ∈ rest, e = Event.libxl_ctx_free ∨ e = Event.xtl_logger_destroy) ∧
        (∀ d, s.env.name_to_domid 0 = some d →
          rest = [] ∧ ∃ s2, vm_create_with_xl_command s = .ok s2 ∧ s2.ctx.vmid = d)) ∧
    (s.env.fork 0 < 0 →
      ∃ s2, vm_create_with_xl_command s = .ok s2 ∧
        s2.trace = s.trace ++ [Event.fork] ∧
        s2.ctx = s.ctx ∧ s2.run_info = s.run_info ∧ s2.config = s.config) := by
  constructor
  · intro hf
    have h1 : ¬ s.env.fork 0 < 0 := by omega
    have h2 : ¬ s.env.fork 0 = 0 := by omega
    unfold vm_create_with_xl_command
    simp only [fork, sleep, vm_name_to_vmid, libxl_name_to_domid, program_shutdown_eq,
      andThen_ok, State.emit, h1, h2, if_false]
    cases hn : s.env.name_to_domid 0 with
    | none =>
      refine ⟨release_events s.ctx, by simp [Outcome.state], ?_, ?_⟩
      · intro e he
        exact release_events_kind _ e he
      · intro d hd
        cases hd
    | some d =>
      refine ⟨[], by simp [Outcome.state], by simp, ?_⟩
      intro d2 hd
      cases hd
      exact ⟨rfl, _, rfl, rfl⟩
  · intro hf
    unfold vm_create_with_xl_command
    simp only [fork, State.emit, hf, if_true]
    exact ⟨_, rfl, rfl, rfl, rfl, rfl⟩

/-- The statement of `recreate_waits_then_looks_up` at `launch_state`, where
`fork` returns 1234, and at `launch_fails_state`, where it returns -1. -/
theorem recreate_waits_then_looks_up_witness :
    (∃ rest, (vm_create_with_xl_command launch_state).state.trace = launch_state.trace ++
          [Event.fork, Event.sleep (launch_state.run_info.period * 2 % UINT_MOD),
           Event.libxl_name_to_domid launch_state.config.vm_name] ++ rest ∧
        (∀ e ∈ rest, e = Event.libxl_ctx_free ∨ e = Event.xtl_logger_destroy) ∧
        (∀ d, launch_state.env.name_to_domid 0 = some d →
          rest = [] ∧ ∃ s2, vm_create_with_xl_command launch_state = .ok s2 ∧
            s2.ctx.vmid = d)) ∧
    (∃ s2, vm_create_with_xl_command launch_fails_state = .ok s2 ∧
        s2.trace = launch_fails_state.trace ++ [Event.fork] ∧
        s2.ctx = launch_fails_state.ctx ∧ s2.run_info = launch_fails_state.run_info ∧
        s2.config = launch_fails_state.config) :=
  ⟨(recreate_waits_then_looks_up launch_state).1 (by decide),
   (recreate_waits_then_looks_up launch_fails_state).2 (by decide)⟩

/-! ## `running` is never set again (C17) -/

/-- C17: `main` initialises `running` to 1, and afterwards `running` is only
ever kept or cleared.  One iteration, each installed handler and every
bounded run of the loop end with `running` equal to its value at the start or
to 0, so a state with `running = 0` is never followed by one with
`running = 1`.  `running` is written only by `signal_stop_running`: an
iteration changes it only in the branch for a shutdown other than a reboot
with `do_ignore_vm_shutdown = 0`, and `signal_shutdown` does not write it. -/
theorem running_is_never_reset (s : State) :
    (∀ env, (main_init env).run_info.running = 1) ∧
    ((main_loop_body s).state.run_info.running = s.run_info.running ∨
      (main_loop_body s).state.run_info.running = 0) ∧
    ((main_loop_body s).state.run_info.running ≠ s.run_info.running →
      ∃ s1, main_loop_poll s = .ok s1 ∧ s1.run_info.term_received ≠ 1 ∧
        s1.ctx.vminfo.shutdown = true ∧ s1.ctx.vminfo.shutdown_reason ≠ .reboot ∧
        s1.config.do_ignore_vm_shutdown = 0) ∧
    (∀ sig, (signal_handler s sig).state.run_info.running = s.run_info.running ∨
      (signal_handler s sig).state.run_info.running = 0) ∧
    (∀ signum, (signal_shutdown signum s).state.run_info.running = s.run_info.running) ∧
    (∀ signum, (signal_stop_running signum s).state.run_info.running = 0) ∧
    (∀ fuel, (main_loop fuel s).state.run_info.running = s.run_info.running ∨
      (main_loop fuel s).state.run_info.running = 0) ∧
    (s.run_info.running = 0 →
      (main_loop_body s).state.run_info.running = 0 ∧
      (∀ sig, (signal_handler s sig).state.run_info.running = 0) ∧
      ∀ fuel, (main_loop fuel s).state.run_info.running = 0) := by
  have hb := main_loop_body_running s
  have hh : ∀ sig, (signal_handler s sig).state.run_info.running = s.run_info.running ∨
      (signal_handler s sig).state.run_info.running = 0 := by
    intro sig
    obtain ⟨s1, h1, r1⟩ := signal_handler_running s sig
    rw [h1]
    exact r1
  refine ⟨fun _ => rfl, hb.1, hb.2, hh, fun _ => rfl, fun _ => rfl,
    fun fuel => main_loop_running fuel s, ?_⟩
  intro h0
  refine ⟨?_, ?_, ?_⟩
  · rcases hb.1 with h | h
    · rw [h, h0]
    · exact h
  · intro sig
    rcases hh sig with h | h
    · rw [h, h0]
    · exact h
  · intro fuel
    rcases main_loop_running fuel s with h | h
    · rw [h, h0]
    · exact h

/-- The statement of `running_is_never_reset` at `crash_ignore_state` with
`running` cleared: nothing sets it again. -/
theorem running_is_never_reset_witness :
    (main_loop_body { crash_ignore_state with
        run_info := { crash_ignore_state.run_info with running := 0 } }).state.run_info.running
      = 0 ∧
    (∀ sig, (signal_handler { crash_ignore_state with
        run_info := { crash_ignore_state.run_info with running := 0 } }
        sig).state.run_info.running = 0) ∧
    ∀ fuel, (main_loop fuel { crash_ignore_state with
        run_info := { crash_ignore_state.run_info with running := 0 } }).state.run_info.running
      = 0 :=
  (running_is_never_reset { crash_ignore_state with
      run_info := { crash_ignore_state.run_info with running := 0 } }).2.2.2.2.2.2.2 rfl

/-! ## The shutdown primitives are gated by the TERM request and `do_shutdown` -/

theorem no_shutdown_primitive_refl (s : State) : no_shutdown_primitive s s :=
  ⟨rfl, [], by simp, by simp⟩

theorem no_shutdown_primitive_trans (s t u : State) (h1 : no_shutdown_primitive s t)
    (h2 : no_shutdown_primitive t u) : no_shutdown_primitive s u := by
  obtain ⟨c1, e1, t1, n1⟩ := h1
  obtain ⟨c2, e2, t2, n2⟩ := h2
  refine ⟨c2.trans c1, e1 ++ e2, by rw [t2, t1, List.append_assoc], ?_⟩
  intro e he
  rcases List.mem_append.mp he with h | h
  · exact n1 e h
  · exact n2 e h

theorem no_shutdown_primitive_andThen (s : State) (o : Outcome) (f : State → Outcome)
    (h : no_shutdown_primitive s o.state)
    (hf : ∀ s1, o = .ok s1 → no_shutdown_primitive s1 (f s1).state) :
    no_shutdown_primitive s (o.andThen f).state := by
  cases o with
  | ok s1 => exact no_shutdown_primitive_trans s s1 _ h (hf s1 rfl)
  | exited c s1 => exact h
  | execed s1 => exact h

theorem release_events_no_shutdown_primitive (c : xlmon_ctx) (e : Event)
    (h : e ∈ release_events c) : e.is_shutdown_primitive = false := by
  rcases release_events_kind c e h with h | h <;> subst h <;> rfl

/-- The poll step issues no shutdown primitive. -/
theorem main_loop_poll_no_shutdown_primitive (s : State) :
    no_shutdown_primitive s (main_loop_poll s).state := by
  cases h0 : s.env.domain_info 0 with
  | some i =>
    rw [main_loop_poll_direct s i h0]
    exact ⟨rfl, _, rfl, by simp [Event.is_shutdown_primitive]⟩
  | none =>
    by_cases hr : s.config.do_recover_stale_vm_id = 0
    · rw [main_loop_poll_stale_fatal s h0 hr]
      refine ⟨rfl, _, rfl, ?_⟩
      intro e he
      rcases List.mem_cons.mp he with h | h
      · subst h; rfl
      · exact release_events_no_shutdown_primitive _ e h
    · cases h1 : s.env.name_to_domid 0 with
      | none =>
        rw [main_loop_poll_lookup_fails s h0 hr h1]
        refine ⟨rfl, _, rfl, ?_⟩
        intro e he
        rcases List.mem_cons.mp he with h | h
        · subst h; rfl
        · rcases List.mem_cons.mp h with h | h
          · subst h; rfl
          · exact release_events_no_shutdown_primitive _ e h
      | some d =>
        cases h2 : s.env.domain_info 1 with
        | none =>
          rw [main_loop_poll_second_fails s d h0 hr h1 h2]
          refine ⟨rfl, _, rfl, ?_⟩
          intro e he
          rcases List.mem_cons.mp he with h | h
          · subst h; rfl
          · rcases List.mem_cons.mp h with h | h
            · subst h; rfl
            · rcases List.mem_cons.mp h with h | h
              · subst h; rfl
              · exact release_events_no_shutdown_primitive _ e h
        | some j =>
          rw [main_loop_poll_recovered s d j h0 hr h1 h2]
          exact ⟨rfl, _, rfl, by simp [Event.is_shutdown_primitive]⟩

/-- `vm_create_with_xl_command` issues no shutdown primitive. -/
theorem vm_create_with_xl_command_no_shutdown_primitive (s : State) :
    no_shutdown_primitive s (vm_create_with_xl_command s).state := by
  unfold vm_create_with_xl_command
  simp only [fork, execlp, sleep, vm_name_to_vmid, libxl_name_to_domid, program_shutdown_eq,
    andThen_ok, State.emit]
  by_cases h1 : s.env.fork 0 < 0
  · simp only [h1, if_true]
    exact ⟨rfl, [Event.fork], rfl, by simp [Event.is_shutdown_primitive]⟩
  · by_cases h2 : s.env.fork 0 = 0
    · cases h3 : s.env.execlp 0 <;>
      · simp only [h1, h2, if_false, if_true]
        exact ⟨rfl, [Event.fork, Event.execlp s.config.vm_config_file],
          by simp [Outcome.state], by simp [Event.is_shutdown_primitive]⟩
    · cases h3 : s.env.name_to_domid 0 with
      | none =>
        simp only [h1, h2, if_false, if_true]
        refine ⟨rfl, Event.fork :: Event.sleep (s.run_info.period * 2 % UINT_MOD) ::
          Event.libxl_name_to_domid s.config.vm_name :: release_events s.ctx,
          by simp [Outcome.state], ?_⟩
        intro e he
        rcases List.mem_cons.mp he with h | h
        · subst h; rfl
        · rcases List.mem_cons.mp h with h | h
          · subst h; rfl
          · rcases List.mem_cons.mp h with h | h
            · subst h; rfl
            · exact release_events_no_shutdown_primitive _ e h
      | some d =>
        simp only [h1, h2, if_false]
        exact ⟨rfl, [Event.fork, Event.sleep (s.run_info.period * 2 % UINT_MOD),
          Event.libxl_name_to_domid s.config.vm_name],
          by simp [Outcome.state], by simp [Event.is_shutdown_primitive]⟩

theorem sleep_no_shutdown_primitive (n : Nat) (s : State) :
    no_shutdown_primitive s (sleep n s) :=
  ⟨rfl, [Event.sleep n], rfl, by simp [Event.is_shutdown_primitive]⟩

theorem vm_destroy_no_shutdown_primitive (s : State) :
    no_shutdown_primitive s (vm_destroy s).state :=
  ⟨rfl, [Event.libxl_domain_destroy s.ctx.vmid], rfl, by simp [Event.is_shutdown_primitive]⟩

/-- `vm_shutdown` leaves `config` alone, and with `do_shutdown` different from
1 it makes no call. -/
theorem vm_shutdown_disabled (s : State) (hs : s.config.do_shutdown ≠ 1) :
    vm_shutdown s = .ok s := by
  unfold vm_shutdown
  rw [if_neg hs]

/-- The rest of the loop body issues a shutdown primitive only when
`term_received = 1` and `do_shutdown = 1`. -/
theorem main_loop_act_no_shutdown_primitive (s : State)
    (h : ¬ (s.run_info.term_received = 1 ∧ s.config.do_shutdown = 1)) :
    no_shutdown_primitive s (main_loop_act s).state := by
  unfold main_loop_act
  by_cases ht : s.run_info.term_received = 1
  · have hs : s.config.do_shutdown ≠ 1 := fun hs => h ⟨ht, hs⟩
    rw [if_pos ht, vm_shutdown_disabled s hs, andThen_ok]
    exact ⟨rfl, [], by simp [Outcome.state], by simp⟩
  · rw [if_neg ht]
    by_cases hs : s.ctx.vminfo.shutdown = true
    · rw [if_pos hs]
      by_cases hb : s.ctx.vminfo.shutdown_reason = .reboot
      · rw [if_pos hb]
        by_cases hre : s.config.do_restart = 1
        · rw [if_pos hre]
          refine no_shutdown_primitive_andThen s _ _ ?_ ?_
          · by_cases hd : (sleep (s.run_info.period * 2 % UINT_MOD) s).config.do_destroy = 1
            · simp only [hd, if_true]
              exact no_shutdown_primitive_trans _ _ _ (sleep_no_shutdown_primitive _ s)
                (vm_destroy_no_shutdown_primitive _)
            · simp only [hd, if_false]
              exact sleep_no_shutdown_primitive _ s
          · intro s1 _
            exact vm_create_with_xl_command_no_shutdown_primitive s1
        · rw [if_neg hre]
          exact sleep_no_shutdown_primitive _ s
      · rw [if_neg hb]
        refine no_shutdown_primitive_andThen s _ _ ?_ ?_
        · by_cases hd : s.config.do_destroy = 1
          · rw [if_pos hd]
            exact no_shutdown_primitive_trans _ _ _ (sleep_no_shutdown_primitive _ s)
              (vm_destroy_no_shutdown_primitive _)
          · rw [if_neg hd]
            exact no_shutdown_primitive_refl s
        · intro s1 _
          by_cases hi : s1.config.do_ignore_vm_shutdown = 0
          · rw [if_pos hi]
            exact ⟨rfl, [], by simp [signal_stop_running, Outcome.state], by simp⟩
          · rw [if_neg hi]
            exact sleep_no_shutdown_primitive _ s1
    · rw [if_neg hs]
      exact sleep_no_shutdown_primitive _ s

/-- One iteration issues a shutdown primitive only when `term_received = 1`
and `do_shutdown = 1`. -/
theorem main_loop_body_no_shutdown_primitive (s : State)
    (h : ¬ (s.run_info.term_received = 1 ∧ s.config.do_shutdown = 1)) :
    no_shutdown_primitive s (main_loop_body s).state := by
  unfold main_loop_body
  refine no_shutdown_primitive_andThen s _ _ (main_loop_poll_no_shutdown_primitive s) ?_
  intro s1 h1
  obtain ⟨hri, hc, _⟩ := main_loop_poll_ok_frame s s1 h1
  exact main_loop_act_no_shutdown_primitive s1 (by rw [hri, hc]; exact h)

/-- With `do_shutdown` different from 1 no bounded run of the loop issues a
shutdown primitive, whatever signals arrive. -/
theorem main_loop_no_shutdown_primitive (fuel : Nat) (s : State)
    (hs : s.config.do_shutdown ≠ 1) :
    no_shutdown_primitive s (main_loop fuel s).state := by
  induction fuel generalizing s with
  | zero => exact no_shutdown_primitive_refl s
  | succ n ih =>
    obtain ⟨s1, h1, c1, t1⟩ := deliver_pending_frame s
    have n1 : no_shutdown_primitive s s1 := ⟨c1, [], by simp [t1], by simp⟩
    have hs1 : s1.config.do_shutdown ≠ 1 := by rw [c1]; exact hs
    unfold main_loop
    rw [h1]
    by_cases hrun : s1.run_info.running = 1
    · simp only [hrun, if_true]
      have nb := main_loop_body_no_shutdown_primitive s1 (fun h => hs1 h.2)
      cases hb : main_loop_body s1 with
      | ok s2 =>
        rw [hb] at nb
        have hs2 : s2.config.do_shutdown ≠ 1 := by
          have : s2.config = s1.config := nb.1
          rw [this]; exact hs1
        exact no_shutdown_primitive_trans s s1 _ n1
          (no_shutdown_primitive_trans s1 s2 _ nb (ih s2 hs2))
      | exited c s2 =>
        rw [hb] at nb
        exact no_shutdown_primitive_trans s s1 _ n1 nb
      | execed s2 =>
        rw [hb] at nb
        exact no_shutdown_primitive_trans s s1 _ n1 nb
    · simp only [hrun, if_false]
      exact n1

/-! ## Without a TERM request the loop body does not read `do_shutdown` -/

theorem andThen_with_do_shutdown (o : Outcome) (f : State → Outcome) (v : Nat)
    (hf : ∀ x, f (x.with_do_shutdown v) = (f x).with_do_shutdown v) :
    (o.with_do_shutdown v).andThen f = (o.andThen f).with_do_shutdown v := by
  cases o with
  | ok s => exact hf s
  | exited c s => rfl
  | execed s => rfl

theorem sleep_with_do_shutdown (n : Nat) (s : State) (v : Nat) :
    sleep n (s.with_do_shutdown v) = (sleep n s).with_do_shutdown v := rfl

theorem vm_destroy_with_do_shutdown (s : State) (v : Nat) :
    vm_destroy (s.with_do_shutdown v) = (vm_destroy s).with_do_shutdown v := rfl

theorem program_shutdown_with_do_shutdown (s : State) (v : Nat) :
    program_shutdown (s.with_do_shutdown v) = (program_shutdown s).with_do_shutdown v := by
  rw [program_shutdown_eq, program_shutdown_eq]
  rfl

theorem vm_name_to_vmid_with_do_shutdown (s : State) (v : Nat) :
    vm_name_to_vmid (s.with_do_shutdown v) = (vm_name_to_vmid s).with_do_shutdown v := by
  unfold vm_name_to_vmid
  cases h1 : s.env.name_to_domid 0 <;>
  simp [libxl_name_to_domid, h1, State.emit, State.with_do_shutdown, Outcome.with_do_shutdown,
    program_shutdown_eq, andThen_ok]

theorem vm_create_with_xl_command_with_do_shutdown (s : State) (v : Nat) :
    vm_create_with_xl_command (s.with_do_shutdown v) =
      (vm_create_with_xl_command s).with_do_shutdown v := by
  unfold vm_create_with_xl_command
  by_cases h1 : s.env.fork 0 < 0
  · simp [h1, fork, State.emit, State.with_do_shutdown, Outcome.with_do_shutdown]
  · by_cases h2 : s.env.fork 0 = 0
    · cases h3 : s.env.execlp 0 <;>
      simp [h2, h3, fork, execlp, State.emit, State.with_do_shutdown,
        Outcome.with_do_shutdown]
    · have e : fork (s.with_do_shutdown v) = ((fork s).1, (fork s).2.with_do_shutdown v) := rfl
      have f1 : ¬ (fork s).1 < 0 := h1
      have f2 : ¬ (fork s).1 = 0 := h2
      simp only [e, f1, f2, if_false]
      have p : ((fork s).2.with_do_shutdown v).run_info = (fork s).2.run_info := rfl
      rw [p, sleep_with_do_shutdown, vm_name_to_vmid_with_do_shutdown]

/-- The poll step does not read `do_shutdown`. -/
theorem main_loop_poll_with_do_shutdown (s : State) (v : Nat) :
    main_loop_poll (s.with_do_shutdown v) = (main_loop_poll s).with_do_shutdown v := by
  cases h0 : s.env.domain_info 0 with
  | some i =>
    rw [main_loop_poll_direct s i h0, main_loop_poll_direct (s.with_do_shutdown v) i h0]
    rfl
  | none =>
    by_cases hr : s.config.do_recover_stale_vm_id = 0
    · rw [main_loop_poll_stale_fatal s h0 hr,
        main_loop_poll_stale_fatal (s.with_do_shutdown v) h0 hr]
      rfl
    · cases h1 : s.env.name_to_domid 0 with
      | none =>
        rw [main_loop_poll_lookup_fails s h0 hr h1,
          main_loop_poll_lookup_fails (s.with_do_shutdown v) h0 hr h1]
        rfl
      | some d =>
        cases h2 : s.env.domain_info 1 with
        | none =>
          rw [main_loop_poll_second_fails s d h0 hr h1 h2,
            main_loop_poll_second_fails (s.with_do_shutdown v) d h0 hr h1 h2]
          rfl
        | some j =>
          rw [main_loop_poll_recovered s d j h0 hr h1 h2,
            main_loop_poll_recovered (s.with_do_shutdown v) d j h0 hr h1 h2]
          rfl

/-- Without a TERM request the rest of the loop body does not read
`do_shutdown`. -/
theorem main_loop_act_with_do_shutdown (s : State) (v : Nat)
    (ht : s.run_info.term_received ≠ 1) :
    main_loop_act (s.with_do_shutdown v) = (main_loop_act s).with_do_shutdown v := by
  unfold main_loop_act
  have c1 : (s.with_do_shutdown v).run_info = s.run_info := rfl
  have c2 : (s.with_do_shutdown v).ctx = s.ctx := rfl
  have c3 : (s.with_do_shutdown v).config.do_restart = s.config.do_restart := rfl
  have c4 : (s.with_do_shutdown v).config.do_destroy = s.config.do_destroy := rfl
  simp only [c1, c2, c3, c4, ht, if_false]
  by_cases hs : s.ctx.vminfo.shutdown = true
  · simp only [hs, if_true]
    by_cases hb : s.ctx.vminfo.shutdown_reason = .reboot
    · simp only [hb, if_true]
      by_cases hre : s.config.do_restart = 1
      · simp only [hre, if_true]
        have k1 : (sleep (s.run_info.period * 2 % UINT_MOD)
            (s.with_do_shutdown v)).config.do_destroy = s.config.do_destroy := rfl
        have k2 : (sleep (s.run_info.period * 2 % UINT_MOD) s).config.do_destroy =
            s.config.do_destroy := rfl
        simp only [k1, k2]
        by_cases hd : s.config.do_destroy = 1
        · simp only [hd, if_true]
          rw [sleep_with_do_shutdown, vm_destroy_with_do_shutdown]
          exact andThen_with_do_shutdown _ _ _
            (fun x => vm_create_with_xl_command_with_do_shutdown x v)
        · simp only [hd, if_false]
          rw [sleep_with_do_shutdown]
          exact andThen_with_do_shutdown (.ok _) _ _
            (fun x => vm_create_with_xl_command_with_do_shutdown x v)
      · simp only [hre, if_false]
        rfl
    · simp only [hb, if_false]
      have hk : ∀ x : State,
          (if (x.with_do_shutdown v).config.do_ignore_vm_shutdown = 0 then
              signal_stop_running 0 (x.with_do_shutdown v)
            else .ok (sleep (x.with_do_shutdown v).run_info.period (x.with_do_shutdown v))) =
          (if x.config.do_ignore_vm_shutdown = 0 then signal_stop_running 0 x
            else .ok (sleep x.run_info.period x)).with_do_shutdown v := by
        intro x
        by_cases hi : x.config.do_ignore_vm_shutdown = 0
        · have hi2 : (x.with_do_shutdown v).config.do_ignore_vm_shutdown = 0 := hi
          simp only [hi, hi2, if_true]
          rfl
        · have hi2 : ¬ (x.with_do_shutdown v).config.do_ignore_vm_shutdown = 0 := hi
          simp only [hi, hi2, if_false]
          rfl
      by_cases hd : s.config.do_destroy = 1
      · simp only [hd, if_true]
        rw [sleep_with_do_shutdown, vm_destroy_with_do_shutdown]
        exact andThen_with_do_shutdown _ _ _ hk
      · simp only [hd, if_false]
        exact andThen_with_do_shutdown (.ok _) _ _ hk
  · simp only [hs, Bool.false_eq_true, if_false]
    rfl

/-- Without a TERM request one iteration does not read `do_shutdown`. -/
theorem main_loop_body_with_do_shutdown (s : State) (v : Nat)
    (ht : s.run_info.term_received ≠ 1) :
    main_loop_body (s.with_do_shutdown v) = (main_loop_body s).with_do_shutdown v := by
  unfold main_loop_body
  rw [main_loop_poll_with_do_shutdown]
  cases hm : main_loop_poll s with
  | ok s1 =>
    have hri : s1.run_info = s.run_info := (main_loop_poll_ok_frame s s1 hm).1
    exact main_loop_act_with_do_shutdown s1 v (by rw [hri]; exact ht)
  | exited c s1 => rfl
  | execed s1 => rfl

/-! ## Shutdown primitives (C11) -/

/-- C11: an iteration issues a shutdown primitive (`libxl_domain_shutdown`,
`libxl_send_trigger`) only if `term_received = 1` and `do_shutdown = 1` when it
starts.  Hence with `do_shutdown = 0` no bounded run of the loop issues one,
whatever signals arrive; and an iteration with `term_received = 0` does the
same for every value of `do_shutdown`: its outcome for `do_shutdown = v` is
its outcome for the value in `s`, with that one field replaced.  In
particular, after a poll that reports a power-off, with `term_received = 0`,
`do_shutdown = 0`, `do_destroy = 0` and `do_ignore_vm_shutdown = 0`, the
iteration issues nothing more (no shutdown primitive, no destroy) and returns
with `running = 0`. -/
theorem shutdown_primitives_are_gated (s : State) :
    (∀ evs, (main_loop_body s).state.trace = s.trace ++ evs →
      (∃ e ∈ evs, e.is_shutdown_primitive = true) →
      s.run_info.term_received = 1 ∧ s.config.do_shutdown = 1) ∧
    (s.config.do_shutdown = 0 →
      ∀ fuel, ∃ evs, (main_loop fuel s).state.trace = s.trace ++ evs ∧
        ∀ e ∈ evs, e.is_shutdown_primitive = false) ∧
    (s.run_info.term_received = 0 →
      ∀ v, main_loop_body (s.with_do_shutdown v) = (main_loop_body s).with_do_shutdown v) ∧
    (∀ s1, main_loop_poll s = .ok s1 → s1.run_info.term_received = 0 →
      s1.ctx.vminfo = { shutdown := true, shutdown_reason := .poweroff } →
      s1.config.do_shutdown = 0 → s1.config.do_destroy = 0 →
      s1.config.do_ignore_vm_shutdown = 0 →
      ∃ s3, main_loop_body s = .ok s3 ∧ s3.trace = s1.trace ∧ s3.run_info.running = 0) := by
  refine ⟨?_, ?_, ?_, ?_⟩
  · intro evs htr hex
    by_contra hc
    obtain ⟨_, evs2, ht2, hn2⟩ := main_loop_body_no_shutdown_primitive s hc
    have heq : evs = evs2 := List.append_cancel_left (htr.symm.trans ht2)
    obtain ⟨e, he, hp⟩ := hex
    rw [heq] at he
    rw [hn2 e he] at hp
    exact Bool.noConfusion hp
  · intro hs fuel
    have hs1 : s.config.do_shutdown ≠ 1 := by rw [hs]; decide
    exact (main_loop_no_shutdown_primitive fuel s hs1).2
  · intro ht v
    exact main_loop_body_with_do_shutdown s v (by rw [ht]; decide)
  · intro s1 hpoll hterm hinfo _ hd hi
    obtain ⟨_, _, hbody⟩ := main_loop_poll_ok_frame s s1 hpoll
    have hshut : s1.ctx.vminfo.shutdown = true := by rw [hinfo]
    have hreason : s1.ctx.vminfo.shutdown_reason ≠ .reboot := by rw [hinfo]; decide
    obtain ⟨s3, h3, htr, hrn, _⟩ :=
      main_loop_act_other_shutdown s1 (by rw [hterm]; decide) hshut hreason
    refine ⟨s3, by rw [hbody, h3], ?_, ?_⟩
    · rw [htr, hd, hi]
      simp
    · rw [hrn, hi]
      simp

/-- The statement of `shutdown_primitives_are_gated` at
`poweroff_noshutdown_nodestroy_state` (`-S -D`, a power-off is polled). -/
theorem shutdown_primitives_are_gated_witness :
    (∀ fuel, ∃ evs, (main_loop fuel poweroff_noshutdown_nodestroy_state).state.trace =
        poweroff_noshutdown_nodestroy_state.trace ++ evs ∧
        ∀ e ∈ evs, e.is_shutdown_primitive = false) ∧
    (∀ v, main_loop_body (poweroff_noshutdown_nodestroy_state.with_do_shutdown v) =
      (main_loop_body poweroff_noshutdown_nodestroy_state).with_do_shutdown v) ∧
    (∃ s3, main_loop_body poweroff_noshutdown_nodestroy_state = .ok s3 ∧
      s3.trace = (main_loop_poll poweroff_noshutdown_nodestroy_state).state.trace ∧
      s3.run_info.running = 0) :=
  ⟨(shutdown_primitives_are_gated poweroff_noshutdown_nodestroy_state).2.1 rfl,
   (shutdown_primitives_are_gated poweroff_noshutdown_nodestroy_state).2.2.1 rfl,
   (shutdown_primitives_are_gated poweroff_noshutdown_nodestroy_state).2.2.2
     (main_loop_poll poweroff_noshutdown_nodestroy_state).state rfl rfl rfl rfl rfl rfl⟩

/-! ## The parser -/

/-- One pass through the switch that returns has handled a well-formed option
and written its field only. -/
theorem xlmon_init_config_switch_ok (g : getopt_result) (s s0 : State)
    (h : xlmon_init_config_switch g s = .ok s0) : parsed_by [g] s s0 := by
  obtain ⟨c, o⟩ := g
  unfold xlmon_init_config_switch at h
  simp only at h
  split_ifs at h with h1 h2 h3 h4 h5 h6 h7 h8 h9
  · cases h; subst h1
    simp [parsed_by, option_given, last_p, well_formed]
  · cases h; subst h2
    simp [parsed_by, option_given, last_p, well_formed]
  · cases h; subst h3
    simp [parsed_by, option_given, last_p, well_formed]
  · cases h; subst h4
    simp [parsed_by, option_given, last_p, well_formed]
  · cases h; subst h5
    simp [parsed_by, option_given, last_p, well_formed]
  · cases h; subst h6
    simp [parsed_by, option_given, last_p, well_formed]
  · subst h7
    cases o with
    | none =>
      simp [xlmon_init_config_case_n, xlmon_init_config_case_c, xlmon_init_config_case_p,
        xlmon_init_config_default, usage] at h
    | some a =>
      simp only [xlmon_init_config_case_n] at h
      cases h
      simp [parsed_by, option_given, last_p, well_formed]
  · subst h8
    cases o with
    | none =>
      simp [xlmon_init_config_case_c, xlmon_init_config_case_p,
        xlmon_init_config_default, usage] at h
    | some a =>
      simp only [xlmon_init_config_case_c] at h
      cases h
      simp [parsed_by, option_given, last_p, well_formed]
  · subst h9
    cases o with
    | none =>
      simp [xlmon_init_config_case_p, xlmon_init_config_default, usage] at h
    | some a =>
      simp only [xlmon_init_config_case_p] at h
      by_cases hz : strtoul a % UINT_MOD = 0
      · simp [hz, xlmon_init_config_default, usage] at h
      · simp only [ne_eq, hz, not_false_eq_true, if_true] at h
        cases h
        simp [parsed_by, option_given, last_p, well_formed, hz]
  · simp [xlmon_init_config_default, usage] at h

theorem option_given_cons (c : Char) (g : getopt_result) (rest : List getopt_result) :
    option_given c (g :: rest) = (decide (g.c = c) || option_given c rest) := rfl

theorem option_given_singleton (c : Char) (g : getopt_result) :
    option_given c [g] = decide (g.c = c) := by
  simp [option_given]

theorem last_p_cons (g : getopt_result) (rest : List getopt_result) :
    last_p (g :: rest) =
      (match last_p rest with
       | some a => some a
       | none => if g.c = 'p' then g.optarg else none) := rfl

/-- Two settings of the same flag field, one after the other. -/
theorem flag_twice (x y z v : Nat) (a b : Bool)
    (h1 : y = if a = true then v else x) (h2 : z = if b = true then v else y) :
    z = if (a || b) = true then v else x := by
  cases a <;> cases b <;> simp_all

theorem parsed_by_nil (s : State) : parsed_by [] s s := by
  simp [parsed_by, option_given, last_p]

/-- The effect of a first option followed by the effect of the others. -/
theorem parsed_by_cons (g : getopt_result) (rest : List getopt_result) (s s0 s1 : State)
    (h1 : parsed_by [g] s s0) (h2 : parsed_by rest s0 s1) : parsed_by (g :: rest) s s1 := by
  obtain ⟨w1, a1, a2, a3, a4, a5, a6, a7, a8, a9, a10, a11, a12, a13, a14, a15⟩ := h1
  obtain ⟨w2, b1, b2, b3, b4, b5, b6, b7, b8, b9, b10, b11, b12, b13, b14, b15⟩ := h2
  rw [option_given_singleton] at a1 a2 a3 a4 a5 a6 a7 a8
  refine ⟨?_, ?_, ?_, ?_, ?_, ?_, ?_, ?_, ?_, ?_, ?_, b11.trans a11, b12.trans a12,
    b13.trans a13, b14.trans a14, b15.trans a15⟩
  · intro x hx
    rcases List.mem_cons.mp hx with h | h
    · rw [h]; exact w1 g (List.mem_singleton_self g)
    · exact w2 x h
  · rw [option_given_cons]; exact flag_twice _ _ _ _ _ _ a1 b1
  · rw [option_given_cons]; exact flag_twice _ _ _ _ _ _ a2 b2
  · rw [option_given_cons]; exact flag_twice _ _ _ _ _ _ a3 b3
  · rw [option_given_cons]; exact flag_twice _ _ _ _ _ _ a4 b4
  · rw [option_given_cons]; exact flag_twice _ _ _ _ _ _ a5 b5
  · rw [option_given_cons]; exact flag_twice _ _ _ _ _ _ a6 b6
  · rw [option_given_cons, b7, a7, Bool.or_assoc]
  · rw [option_given_cons, b8, a8, Bool.or_assoc]
  · rw [last_p_cons, b9]
    cases hl : last_p rest with
    | some a => rfl
    | none => exact a9
  · intro hs
    exact b10 (a10 hs)

/-- When the loop of `xlmon_init_config` returns, every option was well formed
and the fields are those described by `parsed_by`. -/
theorem xlmon_init_config_loop_ok (opts : List getopt_result) (s s1 : State)
    (h : xlmon_init_config_loop opts s = .ok s1) : parsed_by opts s s1 := by
  induction opts generalizing s with
  | nil =>
    cases h
    exact parsed_by_nil _
  | cons g rest ih =>
    unfold xlmon_init_config_loop at h
    cases hg : xlmon_init_config_switch g s with
    | ok s0 =>
      rw [hg, andThen_ok] at h
      exact parsed_by_cons g rest s s0 s1 (xlmon_init_config_switch_ok g s s0 hg) (ih s0 h)
    | exited c s0 => rw [hg, andThen_exited] at h; cases h
    | execed s0 => rw [hg, andThen_execed] at h; cases h

/-- The switch returns for a well-formed option, and otherwise exits with
code 1. -/
theorem xlmon_init_config_switch_outcome (g : getopt_result) (s : State) :
    (well_formed g = true → (xlmon_init_config_switch g s).returned = true) ∧
    (well_formed g = false → (xlmon_init_config_switch g s).exit_code = some 1) := by
  obtain ⟨c, o⟩ := g
  by_cases h1 : c = 'S'
  · subst h1; simp [xlmon_init_config_switch, well_formed, Outcome.returned]
  by_cases h2 : c = 'R'
  · subst h2; simp [xlmon_init_config_switch, well_formed, Outcome.returned]
  by_cases h3 : c = 'T'
  · subst h3; simp [xlmon_init_config_switch, well_formed, Outcome.returned]
  by_cases h4 : c = 'D'
  · subst h4; simp [xlmon_init_config_switch, well_formed, Outcome.returned]
  by_cases h5 : c = 'I'
  · subst h5; simp [xlmon_init_config_switch, well_formed, Outcome.returned]
  by_cases h6 : c = 'A'
  · subst h6; simp [xlmon_init_config_switch, well_formed, Outcome.returned]
  by_cases h7 : c = 'n'
  · subst h7
    cases o <;>
    simp [xlmon_init_config_switch, well_formed, Outcome.returned, Outcome.exit_code,
      xlmon_init_config_case_n, xlmon_init_config_case_c, xlmon_init_config_case_p,
      xlmon_init_config_default, usage]
  by_cases h8 : c = 'c'
  · subst h8
    cases o <;>
    simp [xlmon_init_config_switch, well_formed, Outcome.returned, Outcome.exit_code,
      xlmon_init_config_case_c, xlmon_init_config_case_p, xlmon_init_config_default, usage]
  by_cases h9 : c = 'p'
  · subst h9
    cases o with
    | none =>
      simp [xlmon_init_config_switch, well_formed, Outcome.exit_code,
        xlmon_init_config_case_p, xlmon_init_config_default, usage]
    | some a =>
      by_cases hz : strtoul a % UINT_MOD = 0 <;>
      simp [xlmon_init_config_switch, well_formed, Outcome.returned, Outcome.exit_code,
        xlmon_init_config_case_p, xlmon_init_config_default, usage, hz]
  simp [xlmon_init_config_switch, well_formed, Outcome.exit_code, xlmon_init_config_default,
    usage, h1, h2, h3, h4, h5, h6, h7, h8, h9]

/-- The loop returns when every option is well formed, and otherwise exits
with code 1. -/
theorem xlmon_init_config_loop_outcome (opts : List getopt_result) (s : State) :
    ((∀ g ∈ opts, well_formed g = true) → (xlmon_init_config_loop opts s).returned = true) ∧
    ((∃ g ∈ opts, well_formed g = false) →
      (xlmon_init_config_loop opts s).exit_code = some 1) := by
  induction opts generalizing s with
  | nil =>
    exact ⟨fun _ => rfl, fun h => by simp at h⟩
  | cons g rest ih =>
    obtain ⟨k1, k2⟩ := xlmon_init_config_switch_outcome g s
    unfold xlmon_init_config_loop
    cases hw : well_formed g with
    | true =>
      have hr := k1 hw
      cases hg : xlmon_init_config_switch g s with
      | ok s0 =>
        rw [andThen_ok]
        constructor
        · intro hall
          exact (ih s0).1 (fun x hx => hall x (List.mem_cons_of_mem g hx))
        · intro hex
          obtain ⟨x, hx, hxw⟩ := hex
          rcases List.mem_cons.mp hx with h | h
          · rw [h, hw] at hxw; cases hxw
          · exact (ih s0).2 ⟨x, h, hxw⟩
      | exited c s0 => rw [hg] at hr; cases hr
      | execed s0 => rw [hg] at hr; cases hr
    | false =>
      have hr := k2 hw
      cases hg : xlmon_init_config_switch g s with
      | ok s0 => rw [hg] at hr; cases hr
      | exited c s0 =>
        rw [hg] at hr
        rw [andThen_exited]
        constructor
        · intro hall
          have := hall g (List.mem_cons_self g rest)
          rw [hw] at this
          cases this
        · intro _
          exact hr
      | execed s0 => rw [hg] at hr; cases hr

/-- When `xlmon_init_config` returns, its loop returned with the same state and
the final check found a name and, with restart enabled, a config file. -/
theorem xlmon_init_config_ok (opts : List getopt_result) (s s1 : State)
    (h : xlmon_init_config opts s = .ok s1) :
    xlmon_init_config_loop opts s = .ok s1 ∧ s1.config.vm_name ≠ none ∧
      ¬ (s1.config.do_restart = 1 ∧ s1.config.vm_config_file = none) := by
  unfold xlmon_init_config at h
  cases hl : xlmon_init_config_loop opts s with
  | ok s0 =>
    rw [hl, andThen_ok] at h
    by_cases hc : s0.config.vm_name = none ∨
        (s0.config.do_restart = 1 ∧ s0.config.vm_config_file = none)
    · rw [if_pos hc] at h
      cases h
    · rw [if_neg hc] at h
      cases h
      exact ⟨rfl, fun hn => hc (Or.inl hn), fun hr => hc (Or.inr hr)⟩
  | exited c s0 => rw [hl, andThen_exited] at h; cases h
  | execed s0 => rw [hl, andThen_execed] at h; cases h

/-- `xlmon_init_config` returns or exits with code 1. -/
theorem xlmon_init_config_outcome (opts : List getopt_result) (s : State) :
    (xlmon_init_config opts s).returned = true ∨
      (xlmon_init_config opts s).exit_code = some 1 := by
  unfold xlmon_init_config
  cases hl : xlmon_init_config_loop opts s with
  | ok s0 =>
    rw [andThen_ok]
    by_cases hc : s0.config.vm_name = none ∨
        (s0.config.do_restart = 1 ∧ s0.config.vm_config_file = none)
    · rw [if_pos hc]; exact Or.inr rfl
    · rw [if_neg hc]; exact Or.inl rfl
  | exited c s0 =>
    rw [andThen_exited]
    by_cases hall : ∀ g ∈ opts, well_formed g = true
    · have := (xlmon_init_config_loop_outcome opts s).1 hall
      rw [hl] at this
      cases this
    · have hex : ∃ g ∈ opts, well_formed g = false := by
        by_contra hne
        apply hall
        intro g hg
        cases hw : well_formed g with
        | true => rfl
        | false => exact absurd ⟨g, hg, hw⟩ hne
      have := (xlmon_init_config_loop_outcome opts s).2 hex
      rw [hl] at this
      exact Or.inr this
  | execed s0 =>
    by_cases hall : ∀ g ∈ opts, well_formed g = true
    · have := (xlmon_init_config_loop_outcome opts s).1 hall
      rw [hl] at this
      cases this
    · have hex : ∃ g ∈ opts, well_formed g = false := by
        by_contra hne
        apply hall
        intro g hg
        cases hw : well_formed g with
        | true => rfl
        | false => exact absurd ⟨g, hg, hw⟩ hne
      have := (xlmon_init_config_loop_outcome opts s).2 hex
      rw [hl] at this
      cases this

/-- Without a `p` among the options there is no last `p`. -/
theorem last_p_none (opts : List getopt_result) (h : option_given 'p' opts = false) :
    last_p opts = none := by
  induction opts with
  | nil => rfl
  | cons g rest ih =>
    rw [option_given_cons] at h
    have h1 : decide (g.c = 'p') = false := by
      cases hd : decide (g.c = 'p') with
      | false => rfl
      | true => rw [hd] at h; cases h
    have h2 : option_given 'p' rest = false := by
      rw [h1] at h; exact h
    rw [last_p_cons, ih h2]
    have h3 : ¬ g.c = 'p' := of_decide_eq_false h1
    simp [h3]

/-- The last `p` of a list that ends with a `p` followed by other options. -/
theorem last_p_append (pre post : List getopt_result) (a : String)
    (h : option_given 'p' post = false) :
    last_p (pre ++ ⟨'p', some a⟩ :: post) = some a := by
  induction pre with
  | nil =>
    show last_p (⟨'p', some a⟩ :: post) = some a
    rw [last_p_cons, last_p_none post h]
    simp
  | cons g rest ih =>
    show last_p (g :: (rest ++ ⟨'p', some a⟩ :: post)) = some a
    rw [last_p_cons, ih]

/-- After `xlmon_init_config` has returned from the state set up by `main`, the
period is 5 or the value of the last `p`, it is at least 1 and it fits 32
bits. -/
theorem xlmon_init_config_period (opts : List getopt_result) (env : Env) (s1 : State)
    (h : xlmon_init_config opts (main_init env) = .ok s1) :
    s1.run_info.period =
      (match last_p opts with
       | some a => strtoul a % UINT_MOD
       | none => 5) ∧
    1 ≤ s1.run_info.period ∧ s1.run_info.period < UINT_MOD := by
  obtain ⟨hl, _, _⟩ := xlmon_init_config_ok opts _ s1 h
  obtain ⟨_, _, _, _, _, _, _, _, _, hp, hnz, _⟩ := xlmon_init_config_loop_ok opts _ s1 hl
  have h5 : (main_init env).run_info.period = 5 := rfl
  rw [h5] at hp hnz
  refine ⟨hp, ?_, ?_⟩
  · have := hnz (by decide)
    omega
  · rw [hp]
    cases last_p opts with
    | some a => exact Nat.mod_lt _ (by decide)
    | none => decide

/-! ## Argument validation (C14) -/

/-- C14: for every sequence of recognised options with well-formed values,
`xlmon_init_config`, run from the state `main` sets up, returns if and only if
a name was given with `n` and, in addition, `R` or a config file (`c`) was
given; otherwise it ends in `usage`, that is exit code 1.  In particular
`-n NAME -R` is accepted and `-n NAME` alone exits with code 1. -/
theorem xlmon_init_config_accepts_iff (opts : List getopt_result) (env : Env)
    (hwf : ∀ g ∈ opts, well_formed g = true) :
    ((xlmon_init_config opts (main_init env)).returned = true ↔
      (option_given 'n' opts = true ∧
        (option_given 'R' opts = true ∨ option_given 'c' opts = true))) ∧
    ((xlmon_init_config opts (main_init env)).returned = false →
      (xlmon_init_config opts (main_init env)).exit_code = some 1) ∧
    (∀ name : String,
      (xlmon_init_config [⟨'n', some name⟩, ⟨'R', none⟩] (main_init env)).returned = true) ∧
    (∀ name : String,
      (xlmon_init_config [⟨'n', some name⟩] (main_init env)).exit_code = some 1) := by
  refine ⟨?_, ?_, fun _ => rfl, fun _ => rfl⟩
  · have hret := (xlmon_init_config_loop_outcome opts (main_init env)).1 hwf
    cases hl : xlmon_init_config_loop opts (main_init env) with
    | ok s0 =>
      obtain ⟨_, _, hR, _, _, _, _, hn, hc, _⟩ := xlmon_init_config_loop_ok opts _ s0 hl
      have e : xlmon_init_config opts (main_init env) =
          if s0.config.vm_name = none ∨
              (s0.config.do_restart = 1 ∧ s0.config.vm_config_file = none) then
            usage s0 else .ok s0 := by
        unfold xlmon_init_config
        rw [hl, andThen_ok]
      have i1 : (main_init env).config.vm_name = none := rfl
      have i2 : (main_init env).config.vm_config_file = none := rfl
      have i3 : (main_init env).config.do_restart = 1 := rfl
      rw [i1] at hn
      rw [i2] at hc
      rw [i3] at hR
      rw [e]
      cases hvn : s0.config.vm_name <;> cases hvc : s0.config.vm_config_file <;>
      cases gn : option_given 'n' opts <;> cases gc : option_given 'c' opts <;>
      cases gr : option_given 'R' opts <;>
      simp [hvn, hvc, gn, gc, gr, usage, Outcome.returned] at hn hc hR ⊢ <;>
      simp [hR]
    | exited c s0 => rw [hl] at hret; cases hret
    | execed s0 => rw [hl] at hret; cases hret
  · intro hf
    rcases xlmon_init_config_outcome opts (main_init env) with h | h
    · rw [h] at hf; cases hf
    · exact h

/-- The hypothesis of `xlmon_init_config_accepts_iff` holds at
`sample_options`. -/
theorem xlmon_init_config_accepts_iff_witness :
    ((xlmon_init_config sample_options (main_init quiet_env)).returned = true ↔
      (option_given 'n' sample_options = true ∧
        (option_given 'R' sample_options = true ∨ option_given 'c' sample_options = true))) ∧
    ((xlmon_init_config sample_options (main_init quiet_env)).returned = false →
      (xlmon_init_config sample_options (main_init quiet_env)).exit_code = some 1) ∧
    (∀ name : String,
      (xlmon_init_config [⟨'n', some name⟩, ⟨'R', none⟩]
        (main_init quiet_env)).returned = true) ∧
    (∀ name : String,
      (xlmon_init_config [⟨'n', some name⟩] (main_init quiet_env)).exit_code = some 1) :=
  xlmon_init_config_accepts_iff sample_options quiet_env (by decide)

/-! ## Flags and policy (C15) -/

/-- C15: `main` starts from `do_shutdown = do_restart = do_term = do_destroy = 1`,
`do_ignore_vm_shutdown = do_recover_stale_vm_id = 0` and `period = 5`.  When
`xlmon_init_config` returns, each of these fields has its starting value
unless its flag was given: `S`, `R`, `T`, `D` give 0 in `do_shutdown`,
`do_restart`, `do_term`, `do_destroy`, and `I`, `A` give 1 in
`do_ignore_vm_shutdown`, `do_recover_stale_vm_id`; the period is 5 unless `p`
was given.  One pass through the switch for a flag writes the field of that
flag and nothing else.  Two option sequences in which the same flags occur, in
any order and any number of times, give the same six policy fields. -/
theorem flags_map_to_policy (opts : List getopt_result) (env : Env) (s1 : State)
    (h : xlmon_init_config opts (main_init env) = .ok s1) :
    ((main_init env).config.do_shutdown = 1 ∧ (main_init env).config.do_restart = 1 ∧
      (main_init env).config.do_term = 1 ∧ (main_init env).config.do_destroy = 1 ∧
      (main_init env).config.do_ignore_vm_shutdown = 0 ∧
      (main_init env).config.do_recover_stale_vm_id = 0 ∧
      (main_init env).run_info.period = 5) ∧
    (s1.config.do_shutdown = (if option_given 'S' opts = true then 0 else 1) ∧
      s1.config.do_restart = (if option_given 'R' opts = true then 0 else 1) ∧
      s1.config.do_term = (if option_given 'T' opts = true then 0 else 1) ∧
      s1.config.do_destroy = (if option_given 'D' opts = true then 0 else 1) ∧
      s1.config.do_ignore_vm_shutdown = (if option_given 'I' opts = true then 1 else 0) ∧
      s1.config.do_recover_stale_vm_id = (if option_given 'A' opts = true then 1 else 0) ∧
      (option_given 'p' opts = false → s1.run_info.period = 5)) ∧
    (∀ (s : State) (o : Option String),
      xlmon_init_config_switch ⟨'S', o⟩ s =
        .ok { s with config := { s.config with do_shutdown := 0 } } ∧
      xlmon_init_config_switch ⟨'R', o⟩ s =
        .ok { s with config := { s.config with do_restart := 0 } } ∧
      xlmon_init_config_switch ⟨'T', o⟩ s =
        .ok { s with config := { s.config with do_term := 0 } } ∧
      xlmon_init_config_switch ⟨'D', o⟩ s =
        .ok { s with config := { s.config with do_destroy := 0 } } ∧
      xlmon_init_config_switch ⟨'I', o⟩ s =
        .ok { s with config := { s.config with do_ignore_vm_shutdown := 1 } } ∧
      xlmon_init_config_switch ⟨'A', o⟩ s =
        .ok { s with config := { s.config with do_recover_stale_vm_id := 1 } }) ∧
    (∀ (opts2 : List getopt_result) (s2 : State),
      xlmon_init_config opts2 (main_init env) = .ok s2 →
      (∀ c ∈ ['S', 'R', 'T', 'D', 'I', 'A'], option_given c opts2 = option_given c opts) →
      s2.config.do_shutdown = s1.config.do_shutdown ∧
      s2.config.do_restart = s1.config.do_restart ∧
      s2.config.do_term = s1.config.do_term ∧
      s2.config.do_destroy = s1.config.do_destroy ∧
      s2.config.do_ignore_vm_shutdown = s1.config.do_ignore_vm_shutdown ∧
      s2.config.do_recover_stale_vm_id = s1.config.do_recover_stale_vm_id) := by
  obtain ⟨hl, _, _⟩ := xlmon_init_config_ok opts _ s1 h
  obtain ⟨_, a1, a2, a3, a4, a5, a6, _, _, a9, _⟩ := xlmon_init_config_loop_ok opts _ s1 hl
  refine ⟨⟨rfl, rfl, rfl, rfl, rfl, rfl, rfl⟩, ⟨a1, a2, a3, a4, a5, a6, ?_⟩,
    fun _ _ => ⟨rfl, rfl, rfl, rfl, rfl, rfl⟩, ?_⟩
  · intro hp
    rw [a9, last_p_none opts hp]
    rfl
  · intro opts2 s2 h2 hsame
    obtain ⟨hl2, _, _⟩ := xlmon_init_config_ok opts2 _ s2 h2
    obtain ⟨_, b1, b2, b3, b4, b5, b6, _⟩ := xlmon_init_config_loop_ok opts2 _ s2 hl2
    have e1 := hsame 'S' (by simp)
    have e2 := hsame 'R' (by simp)
    have e3 := hsame 'T' (by simp)
    have e4 := hsame 'D' (by simp)
    have e5 := hsame 'I' (by simp)
    have e6 := hsame 'A' (by simp)
    exact ⟨by rw [b1, a1, e1], by rw [b2, a2, e2], by rw [b3, a3, e3], by rw [b4, a4, e4],
      by rw [b5, a5, e5], by rw [b6, a6, e6]⟩

/-- The hypothesis of `flags_map_to_policy` holds at `sample_options`. -/
theorem flags_map_to_policy_witness :
    (xlmon_init_config sample_options (main_init quiet_env)).state.config.do_shutdown = 1 ∧
    (xlmon_init_config sample_options (main_init quiet_env)).state.config.do_restart = 0 ∧
    (xlmon_init_config sample_options (main_init quiet_env)).state.config.do_term = 1 ∧
    (xlmon_init_config sample_options (main_init quiet_env)).state.config.do_destroy = 0 ∧
    (xlmon_init_config sample_options
      (main_init quiet_env)).state.config.do_ignore_vm_shutdown = 0 ∧
    (xlmon_init_config sample_options
      (main_init quiet_env)).state.config.do_recover_stale_vm_id = 0 :=
  have h := (flags_map_to_policy sample_options quiet_env
    (xlmon_init_config sample_options (main_init quiet_env)).state rfl).2.1
  ⟨h.1, h.2.1, h.2.2.1, h.2.2.2.1, h.2.2.2.2.1, h.2.2.2.2.2.1⟩

/-! ## The period (C18) -/

/-- C18: when `xlmon_init_config` returns, run from the state `main` sets up,
the period is 5 if no `p` was given and otherwise the value of the argument of
the last `p`, read by `strtoul` in base 10 and cut to 32 bits; in both cases
it is at least 1.  A `p` whose argument has the 32-bit value 0 makes the
parser end in `usage`, that is exit code 1, from any state and whatever the
other options are; such arguments are "0", a string without digits, and
"4294967296" with a 64-bit `unsigned long`. -/
theorem period_is_never_zero (opts : List getopt_result) (env : Env) (s1 : State)
    (h : xlmon_init_config opts (main_init env) = .ok s1) :
    (option_given 'p' opts = false → s1.run_info.period = 5) ∧
    (∀ (pre post : List getopt_result) (a : String),
      opts = pre ++ ⟨'p', some a⟩ :: post → option_given 'p' post = false →
      s1.run_info.period = strtoul a % UINT_MOD) ∧
    1 ≤ s1.run_info.period ∧
    (∀ (opts2 : List getopt_result) (s : State) (a : String),
      ⟨'p', some a⟩ ∈ opts2 → strtoul a % UINT_MOD = 0 →
      (xlmon_init_config opts2 s).exit_code = some 1) ∧
    strtoul "0" % UINT_MOD = 0 ∧ strtoul "five" % UINT_MOD = 0 ∧
    strtoul "4294967296" = 4294967296 ∧ strtoul "4294967296" % UINT_MOD = 0 := by
  obtain ⟨hp, hpos, _⟩ := xlmon_init_config_period opts env s1 h
  refine ⟨?_, ?_, hpos, ?_, by decide, by decide, by decide, by decide⟩
  · intro hn
    rw [hp, last_p_none opts hn]
  · intro pre post a ho hn
    rw [hp, ho, last_p_append pre post a hn]
  · intro opts2 s a hmem hz
    have hw : well_formed ⟨'p', some a⟩ = false := by
      simp [well_formed, hz]
    have hex := (xlmon_init_config_loop_outcome opts2 s).2 ⟨_, hmem, hw⟩
    unfold xlmon_init_config
    cases hl : xlmon_init_config_loop opts2 s with
    | ok s0 => rw [hl] at hex; cases hex
    | exited c s0 =>
      rw [hl] at hex
      rw [andThen_exited]
      exact hex
    | execed s0 => rw [hl] at hex; cases hex

/-- The hypothesis of `period_is_never_zero` holds at `sample_options`, whose
last `p` has the argument "30". -/
theorem period_is_never_zero_witness :
    (xlmon_init_config sample_options (main_init quiet_env)).state.run_info.period =
      strtoul "30" % UINT_MOD ∧
    1 ≤ (xlmon_init_config sample_options (main_init quiet_env)).state.run_info.period :=
  have h := period_is_never_zero sample_options quiet_env
    (xlmon_init_config sample_options (main_init quiet_env)).state rfl
  ⟨h.2.1 [⟨'n', some "domu"⟩, ⟨'D', none⟩] [⟨'R', none⟩, ⟨'D', none⟩] "30" rfl rfl, h.2.2.1⟩

/-! ## The grace wait in 32 bits (C19) -/

/-- In the parent after a launch, `vm_create_with_xl_command` waits
`period * 2` seconds right after `fork`. -/
theorem vm_create_with_xl_command_parent_wait (s : State) (hf : 0 < s.env.fork 0) :
    ∃ rest, (vm_create_with_xl_command s).state.trace = s.trace ++
      Event.fork :: Event.sleep (s.run_info.period * 2 % UINT_MOD) :: rest := by
  have h1 : ¬ s.env.fork 0 < 0 := by omega
  have h2 : ¬ s.env.fork 0 = 0 := by omega
  unfold vm_create_with_xl_command
  simp only [fork, sleep, vm_name_to_vmid, libxl_name_to_domid, program_shutdown_eq,
    andThen_ok, State.emit, h1, h2, if_false]
  cases hn : s.env.name_to_domid 0 with
  | none =>
    exact ⟨Event.libxl_name_to_domid s.config.vm_name :: release_events s.ctx,
      by simp [Outcome.state]⟩
  | some d =>
    exact ⟨[Event.libxl_name_to_domid s.config.vm_name], by simp [Outcome.state]⟩

/-- C19: the three grace waits (before the destroy on a reboot, before the
destroy on another shutdown, after the launch of the creation tool) are issued
with the `unsigned int` product `period * 2`, that is `(2 * period) mod 2^32`
seconds.  This is `2 * period` for every period below `2^31`; for a period
from `2^31` up that fits 32 bits, as every period accepted by the parser does,
it is strictly less than the period, and for the period `2^31` it is 0. -/
theorem grace_wait_wraps_at_32_bits (s : State) :
    UINT_MOD = 2 ^ 32 ∧
    (s.run_info.term_received ≠ 1 → s.ctx.vminfo.shutdown = true →
      s.ctx.vminfo.shutdown_reason = .reboot → s.config.do_restart = 1 →
      ∃ rest, (main_loop_act s).state.trace = s.trace ++
        Event.sleep (s.run_info.period * 2 % UINT_MOD) :: rest) ∧
    (s.run_info.term_received ≠ 1 → s.ctx.vminfo.shutdown = true →
      s.ctx.vminfo.shutdown_reason ≠ .reboot → s.config.do_destroy = 1 →
      ∃ rest, (main_loop_act s).state.trace = s.trace ++
        Event.sleep (s.run_info.period * 2 % UINT_MOD) ::
          Event.libxl_domain_destroy s.ctx.vmid :: rest) ∧
    (0 < s.env.fork 0 →
      ∃ rest, (vm_create_with_xl_command s).state.trace = s.trace ++
        Event.fork :: Event.sleep (s.run_info.period * 2 % UINT_MOD) :: rest) ∧
    (s.run_info.period < 2147483648 →
      s.run_info.period * 2 % UINT_MOD = 2 * s.run_info.period) ∧
    (2147483648 ≤ s.run_info.period → s.run_info.period < UINT_MOD →
      s.run_info.period * 2 % UINT_MOD < s.run_info.period) ∧
    (s.run_info.period = 2147483648 → s.run_info.period * 2 % UINT_MOD = 0) ∧
    (∀ (opts : List getopt_result) (env : Env) (s1 : State),
      xlmon_init_config opts (main_init env) = .ok s1 →
      2147483648 ≤ s1.run_info.period →
      s1.run_info.period * 2 % UINT_MOD < s1.run_info.period) := by
  refine ⟨by decide, ?_, ?_, vm_create_with_xl_command_parent_wait s, ?_, ?_, ?_, ?_⟩
  · intro ht hs hb hre
    obtain ⟨s2, h2, htr, _⟩ := main_loop_act_reboot_restart s ht hs hb hre
    obtain ⟨_, _, rest, frest, _⟩ := vm_create_with_xl_command_frame s2
    rw [h2, frest, htr]
    exact ⟨_, by rw [List.append_assoc, List.cons_append]⟩
  · intro ht hs hb hd
    obtain ⟨s3, h3, htr, _⟩ := main_loop_act_other_shutdown s ht hs hb
    rw [h3]
    show ∃ rest, s3.trace = _
    rw [htr, if_pos hd]
    exact ⟨_, by rw [List.append_assoc, List.cons_append, List.cons_append,
      List.nil_append]⟩
  · intro hp
    unfold UINT_MOD
    omega
  · intro h1 h2
    unfold UINT_MOD at h2 ⊢
    omega
  · intro hp
    rw [hp]
    decide
  · intro opts env s1 h hbig
    obtain ⟨_, _, hlt⟩ := xlmon_init_config_period opts env s1 h
    unfold UINT_MOD at hlt ⊢
    omega

/-- The statement of `grace_wait_wraps_at_32_bits` at the period `2^31`: the
parser accepts `-p 2147483648`, and the iteration that then polls a reboot
waits `2147483648 * 2 mod 2^32 = 0` seconds before the destroy. -/
theorem grace_wait_wraps_at_32_bits_witness :
    (xlmon_init_config wrap_options (main_init quiet_env)).state.run_info.period * 2 %
        UINT_MOD <
      (xlmon_init_config wrap_options (main_init quiet_env)).state.run_info.period ∧
    (∃ rest, (main_loop_act (main_loop_poll wrap_reboot_state).state).state.trace =
      (main_loop_poll wrap_reboot_state).state.trace ++
        Event.sleep ((main_loop_poll wrap_reboot_state).state.run_info.period * 2 % UINT_MOD) ::
          rest) ∧
    (main_loop_poll wrap_reboot_state).state.run_info.period * 2 % UINT_MOD = 0 :=
  ⟨(grace_wait_wraps_at_32_bits wrap_reboot_state).2.2.2.2.2.2.2 wrap_options quiet_env
      (xlmon_init_config wrap_options (main_init quiet_env)).state rfl (by decide),
   (grace_wait_wraps_at_32_bits (main_loop_poll wrap_reboot_state).state).2.1
      (by decide) rfl rfl rfl,
   (grace_wait_wraps_at_32_bits (main_loop_poll wrap_reboot_state).state).2.2.2.2.2.2.1 rfl⟩

end Xlmon
